import Mathlib

/-!
Shallow embedding of the patchy webhook/notification pipeline
(src/webhook_server.py, src/discord_bot.py) and proofs about it.

Python strings are modelled as `List Char` (sequences of Unicode scalar
values), byte strings as `List Nat` with every element below 256.
GitHub payloads are modelled by the `Json` type below; JSON numbers are
modelled as integers (floating point is outside the scope of the claims
considered here).
-/

/-! ## Python byte/string primitives -/

/-- UTF-8 encoding of one Unicode scalar value, as `str.encode('utf-8')`
produces for one character. -/
def utf8EncodeChar (c : Char) : List Nat :=
  let n := c.toNat
  if n < 128 then [n]
  else if n < 2048 then [192 + n / 64, 128 + n % 64]
  else if n < 65536 then [224 + n / 4096, 128 + n / 64 % 64, 128 + n % 64]
  else [240 + n / 262144, 128 + n / 4096 % 64, 128 + n / 64 % 64, 128 + n % 64]

/-- `s.encode('utf-8')` on a Python `str`. -/
def utf8Encode (s : List Char) : List Nat := (s.map utf8EncodeChar).flatten

/-- Python `str.startswith(pat)` on our string model. -/
def pyStartsWith (pat s : List Char) : Bool := pat.isPrefixOf s

/-- One step of Python `str.title()`: a cased character is uppercased when
the previous character was not cased, lowercased otherwise (ASCII letters;
matches CPython on the ASCII action strings the program handles). -/
def pyTitleAux : Bool → List Char → List Char
  | _, [] => []
  | prevCased, c :: cs =>
      let cased := c.isAlpha
      (if cased then (if prevCased then c.toLower else c.toUpper) else c)
        :: pyTitleAux cased cs

/-- Python `str.title()`. -/
def pyTitle (s : List Char) : List Char := pyTitleAux false s

/-- Python `str.replace(pat, repl)` for a non-empty pattern: replaces every
non-overlapping occurrence left to right.  The first argument is fuel,
always called with the length of the subject string. -/
def pyReplaceAux (pat repl : List Char) : Nat → List Char → List Char
  | _, [] => []
  | 0, s => s
  | fuel + 1, c :: cs =>
      if pat.isPrefixOf (c :: cs) then
        repl ++ pyReplaceAux pat repl fuel ((c :: cs).drop pat.length)
      else
        c :: pyReplaceAux pat repl fuel cs

/-- Python `s.replace(pat, repl)` (non-empty `pat`). -/
def pyReplace (s pat repl : List Char) : List Char :=
  pyReplaceAux pat repl s.length s

/-- Python `", ".join`-style intercalation. -/
def pyJoin (sep : List Char) : List (List Char) → List Char
  | [] => []
  | [x] => x
  | x :: y :: xs => x ++ sep ++ pyJoin sep (y :: xs)

/-- All characters of the string are ASCII (`hmac.compare_digest` on two
`str` arguments requires both to be ASCII-only and raises otherwise). -/
def isAsciiStr (s : List Char) : Bool := s.all (fun c => c.toNat < 128)

/-! ## SHA-256 (as `hashlib.sha256`) -/

/-- Truncate to a 32-bit word. -/
def w32 (x : Nat) : Nat := x % 4294967296

/-- Right rotation of a 32-bit word. -/
def rotr (n x : Nat) : Nat := ((x >>> n) ||| (x <<< (32 - n))) % 4294967296

/-- The SHA-256 round constants. -/
def sha256K : List Nat :=
  [1116352408, 1899447441, 3049323471, 3921009573, 961987163,
   1508970993, 2453635748, 2870763221, 3624381080, 310598401,
   607225278, 1426881987, 1925078388, 2162078206, 2614888103,
   3248222580, 3835390401, 4022224774, 264347078, 604807628,
   770255983, 1249150122, 1555081692, 1996064986, 2554220882,
   2821834349, 2952996808, 3210313671, 3336571891, 3584528711,
   113926993, 338241895, 666307205, 773529912, 1294757372,
   1396182291, 1695183700, 1986661051, 2177026350, 2456956037,
   2730485921, 2820302411, 3259730800, 3345764771, 3516065817,
   3600352804, 4094571909, 275423344, 430227734, 506948616,
   659060556, 883997877, 958139571, 1322822218, 1537002063,
   1747873779, 1955562222, 2024104815, 2227730452, 2361852424,
   2428436474, 2756734187, 3204031479, 3329325298]

/-- The SHA-256 initial hash value. -/
def sha256InitH : List Nat :=
  [1779033703, 3144134277, 1013904242, 2773480762,
   1359893119, 2600822924, 528734635, 1541459225]

/-- Big-endian byte serialization of `x` into `n` bytes. -/
def beBytes : Nat → Nat → List Nat
  | 0, _ => []
  | n + 1, x => beBytes n (x / 256) ++ [x % 256]

/-- Group a byte list (whose length is a multiple of 4) into
big-endian 32-bit words. -/
def toWords : List Nat → List Nat
  | a :: b :: c :: d :: rest =>
      (a * 16777216 + b * 65536 + c * 256 + d) :: toWords rest
  | _ => []

def smallSigma0 (x : Nat) : Nat := rotr 7 x ^^^ rotr 18 x ^^^ (x >>> 3)

def smallSigma1 (x : Nat) : Nat := rotr 17 x ^^^ rotr 19 x ^^^ (x >>> 10)

/-- Message-schedule extension; the accumulator holds the words produced so
far in reverse order. -/
def extendLoop : Nat → List Nat → List Nat
  | 0, acc => acc
  | n + 1, acc =>
      extendLoop n
        (w32 (smallSigma1 (acc.getD 1 0) + acc.getD 6 0 +
              smallSigma0 (acc.getD 14 0) + acc.getD 15 0) :: acc)

/-- The 64-entry message schedule from the 16 words of one block. -/
def schedule (ws : List Nat) : List Nat := (extendLoop 48 ws.reverse).reverse

/-- Working state of the SHA-256 compression function. -/
structure Sha256State where
  a : Nat
  b : Nat
  c : Nat
  d : Nat
  e : Nat
  f : Nat
  g : Nat
  h : Nat

def sha256Round (s : Sha256State) (kw : Nat × Nat) : Sha256State :=
  let s1 := rotr 6 s.e ^^^ rotr 11 s.e ^^^ rotr 25 s.e
  let ch := (s.e &&& s.f) ^^^ ((s.e ^^^ 4294967295) &&& s.g)
  let temp1 := w32 (s.h + s1 + ch + kw.1 + kw.2)
  let s0 := rotr 2 s.a ^^^ rotr 13 s.a ^^^ rotr 22 s.a
  let maj := (s.a &&& s.b) ^^^ (s.a &&& s.c) ^^^ (s.b &&& s.c)
  let temp2 := w32 (s0 + maj)
  ⟨w32 (temp1 + temp2), s.a, s.b, s.c, w32 (s.d + temp1), s.e, s.f, s.g⟩

/-- Compress one 64-byte block into the running 8-word hash value. -/
def compressBlock (hv : List Nat) (block : List Nat) : List Nat :=
  let ws := schedule (toWords block)
  let init : Sha256State :=
    ⟨hv.getD 0 0, hv.getD 1 0, hv.getD 2 0, hv.getD 3 0,
     hv.getD 4 0, hv.getD 5 0, hv.getD 6 0, hv.getD 7 0⟩
  let s := (sha256K.zip ws).foldl sha256Round init
  [w32 (hv.getD 0 0 + s.a), w32 (hv.getD 1 0 + s.b), w32 (hv.getD 2 0 + s.c),
   w32 (hv.getD 3 0 + s.d), w32 (hv.getD 4 0 + s.e), w32 (hv.getD 5 0 + s.f),
   w32 (hv.getD 6 0 + s.g), w32 (hv.getD 7 0 + s.h)]

/-- Process the padded message 64 bytes at a time (first argument is fuel,
at least the number of blocks). -/
def processBlocks : Nat → List Nat → List Nat → List Nat
  | 0, hv, _ => hv
  | fuel + 1, hv, msg =>
      match msg with
      | [] => hv
      | _ => processBlocks fuel (compressBlock hv (msg.take 64)) (msg.drop 64)

/-- SHA-256 padding: append `0x80`, zeros to 56 mod 64, then the bit length
as a 64-bit big-endian integer. -/
def padMessage (msg : List Nat) : List Nat :=
  msg ++ [128] ++ List.replicate ((119 - msg.length % 64) % 64) 0
      ++ beBytes 8 (8 * msg.length)

/-- `hashlib.sha256(msg).digest()`: the 32-byte SHA-256 digest. -/
def sha256 (msg : List Nat) : List Nat :=
  let padded := padMessage msg
  let hv := processBlocks (padded.length / 64) sha256InitH padded
  (hv.map (beBytes 4)).flatten

/-! ## HMAC (as `hmac.new(key, msg, hashlib.sha256)`) -/

/-- `hmac.new(key, msg, hashlib.sha256).digest()`.  A key longer than the
64-byte block size is first replaced by its SHA-256 digest. -/
def hmacSha256 (key msg : List Nat) : List Nat :=
  let k0 := if 64 < key.length then sha256 key else key
  let kPad := k0 ++ List.replicate (64 - k0.length) 0
  let ipad := kPad.map (fun b => b ^^^ 0x36)
  let opad := kPad.map (fun b => b ^^^ 0x5c)
  sha256 (opad ++ sha256 (ipad ++ msg))

/-- One lowercase hexadecimal digit. -/
def hexChar (n : Nat) : Char := ((r"0123456789abcdef").data).getD n (Char.ofNat 48)

/-- Lowercase hexadecimal rendering of one byte. -/
def hexByte (b : Nat) : List Char := [hexChar (b / 16 % 16), hexChar (b % 16)]

/-- `.hexdigest()`: lowercase hexadecimal string of a byte list. -/
def hexdigest (bs : List Nat) : List Char := (bs.map hexByte).flatten

/-- Exceptions of the modelled Python fragments. -/
inductive PyErr where
  | typeError
  | attributeError
deriving DecidableEq

/-- `hmac.compare_digest` on two `str` arguments: both must be ASCII-only
(otherwise `TypeError`); the result is equality of the two strings (the
constant-time execution strategy does not change the returned value). -/
def compare_digest (x y : List Char) : Except PyErr Bool :=
  if isAsciiStr x && isAsciiStr y then .ok (decide (x = y)) else .error .typeError

/-! ## Signature Verifier (`verify_github_signature`, src/webhook_server.py) -/

/-- `verify_github_signature(payload, signature)` with
`config.GITHUB_WEBHOOK_SECRET = secret`.  An empty secret means
verification is skipped (returns `True`); a header that does not start
with `sha256=` is rejected; otherwise the HMAC-SHA256 hexdigest of the
payload under the UTF-8 encoded secret is compared with the part of the
header after the first seven characters, any exception yielding `False`. -/
def verify_github_signature (secret : List Char) (payload : List Nat)
    (signature : List Char) : Bool :=
  if secret = [] then true
  else if !pyStartsWith ((r"sha256=").data) signature then false
  else
    let expected := hexdigest (hmacSha256 (utf8Encode secret) payload)
    let received := signature.drop 7
    match compare_digest expected received with
    | .ok b => b
    | .error _ => false

/-! ## JSON values (decoded GitHub payloads) -/

/-- Decoded JSON values, as produced by `json.loads`.  Numbers are
modelled as integers. -/
inductive Json where
  | null
  | bool (b : Bool)
  | num (n : Int)
  | str (s : List Char)
  | arr (xs : List Json)
  | obj (kvs : List (List Char × Json))

/-- Lookup in an object's key/value list (Python dict keys are unique; we
take the first match). -/
def jLookup (kvs : List (List Char × Json)) (k : List Char) : Option Json :=
  (kvs.find? (fun kv => kv.1 == k)).map (fun kv => kv.2)

/-- Python `d.get(k, dflt)`: `AttributeError` when the receiver is not a
dict.  A key present with value `None` yields `None`, not the default. -/
def pyGet (j : Json) (k : List Char) (dflt : Json) : Except PyErr Json :=
  match j with
  | .obj kvs => .ok ((jLookup kvs k).getD dflt)
  | _ => .error .attributeError

/-- Calling a `str` method (`.startswith`, `.title`, ...) on a value:
`AttributeError` unless it is a string. -/
def asStr : Json → Except PyErr (List Char)
  | .str s => .ok s
  | _ => .error .attributeError

/-- Python `len(x)`: defined for strings, lists and dicts, `TypeError`
otherwise. -/
def pyLen : Json → Except PyErr Nat
  | .str s => .ok s.length
  | .arr xs => .ok xs.length
  | .obj kvs => .ok kvs.length
  | _ => .error .typeError

/-- Python truthiness of a JSON value. -/
def truthy : Json → Bool
  | .null => false
  | .bool b => b
  | .num n => decide (n ≠ 0)
  | .str s => !s.isEmpty
  | .arr xs => !xs.isEmpty
  | .obj kvs => !kvs.isEmpty

/-- Python `x[-1]` followed by use as an element (for `commits[-1]`):
lists yield their last element, strings a one-character string, anything
else raises. -/
def pyLast : Json → Except PyErr Json
  | .arr xs => match xs.getLast? with
      | some x => .ok x
      | none => .error .typeError
  | .str s => match s.getLast? with
      | some c => .ok (.str [c])
      | none => .error .typeError
  | _ => .error .typeError

/-- Python `x[:5]` followed by iteration (for `labels[:5]`): lists are
truncated, strings yield their first characters as strings, anything else
(dict slicing, integers, ...) raises. -/
def pySlice5 : Json → Except PyErr (List Json)
  | .arr xs => .ok (xs.take 5)
  | .str s => .ok ((s.take 5).map (fun c => Json.str [c]))
  | _ => .error .typeError

/-- Require every element to be a string (`", ".join(...)` raises
`TypeError` on a non-string element). -/
def strListE : List Json → Except PyErr (List (List Char))
  | [] => .ok []
  | j :: js =>
      match j with
      | .str s => (strListE js).map (fun rest => s :: rest)
      | _ => .error .typeError

/-- The truncation idiom `if len(x) > cap: x = x[:cut] + "..."`: `len` of
an unsized value raises; slicing a non-string (list, dict) and appending
a string raises; strings within the cap are returned unchanged. -/
def pyTruncate (cap cut : Nat) (j : Json) : Except PyErr Json := do
  let n ← pyLen j
  if cap < n then
    match j with
    | .str s => pure (.str (s.take cut ++ (r"...").data))
    | _ => throw .typeError
  else
    pure j

/-- Python `{...literal dict...}.get(key, dflt)` for string-keyed literal
maps (the color and emoji maps): unhashable keys (lists, dicts) raise
`TypeError`; hashable non-string keys fall through to the default. -/
def pyMapGet {α : Type} (pairs : List (List Char × α)) (dflt : α)
    (k : Json) : Except PyErr α :=
  match k with
  | .arr _ => .error .typeError
  | .obj _ => .error .typeError
  | .str s => .ok (((pairs.find? (fun kv => kv.1 == s)).map (fun kv => kv.2)).getD dflt)
  | _ => .ok dflt

/-- Python `repr` of a one-string, used inside container `str()`
rendering (quote-style edge cases for strings containing quotes are not
modelled; no claim evaluates those). -/
def strRepr (s : List Char) : List Char := [Char.ofNat 39] ++ s ++ [Char.ofNat 39]

mutual

/-- Python `repr` of a JSON value. -/
def pyRepr : Json → List Char
  | .null => (r"None").data
  | .bool true => (r"True").data
  | .bool false => (r"False").data
  | .num n => (toString n).data
  | .str s => strRepr s
  | .arr xs => [Char.ofNat 91] ++ pyReprList xs ++ [Char.ofNat 93]
  | .obj kvs => [Char.ofNat 123] ++ pyReprObj kvs ++ [Char.ofNat 125]
termination_by structural j => j

/-- Comma-separated `repr`s of list elements. -/
def pyReprList : List Json → List Char
  | [] => []
  | [x] => pyRepr x
  | x :: y :: xs => pyRepr x ++ (r", ").data ++ pyReprList (y :: xs)
termination_by structural xs => xs

/-- Comma-separated `repr`s of dict entries. -/
def pyReprObj : List (List Char × Json) → List Char
  | [] => []
  | [(k, v)] => strRepr k ++ (r": ").data ++ pyRepr v
  | (k, v) :: y :: xs =>
      strRepr k ++ (r": ").data ++ pyRepr v ++ (r", ").data ++ pyReprObj (y :: xs)
termination_by structural kvs => kvs

end

/-- Python `str(x)` as applied by `discord.Embed`/`add_field` to titles,
field names and values. -/
def pyStr : Json → List Char
  | .str s => s
  | j => pyRepr j

/-! ## Notification records (discord.Embed contents) -/

/-- One embed field (`Embed.add_field` coerces name and value with
`str`). -/
structure NField where
  name : List Char
  value : List Char
  inline : Bool
deriving DecidableEq

/-- The rendered notification: the engine-relevant contents of the
`discord.Embed` a builder returns.  `timestamp` is `none` until the
builder assigns `discord.utils.utcnow()`, modelled as the instant `now`
passed to the builder. -/
structure Notification where
  title : List Char
  description : List Char
  color : Nat
  url : List Char
  fields : List NField
  authorName : List Char
  authorIcon : List Char
  footer : List Char
  timestamp : Option Nat
deriving DecidableEq

/-- The value of the first field carrying the given name, if any. -/
def getField (n : Notification) (name : List Char) : Option (List Char) :=
  ((n.fields.find? (fun f => f.name == name)).map (fun f => f.value))

/-! ## Event Renderer (`create_*_embed`, src/webhook_server.py) -/

/-- The `[{full_name}]({html_url})` repository link value used by every
builder. -/
def repoLinkValue (fullName htmlUrl : Json) : List Char :=
  (r"[").data ++ pyStr fullName ++ (r"](").data ++ pyStr htmlUrl ++ (r")").data

/-- Body of `create_push_embed` after its five `payload.get` extractions,
before the final `embed.timestamp = utcnow()` assignment (`timestamp`
still `none`). -/
def pushEmbedCore (repository pusher commits ref compareUrl : Json) :
    Except PyErr Notification := do
  let refS ← asStr ref
  let branch :=
    if pyStartsWith ((r"refs/heads/").data) refS then
      pyReplace refS ((r"refs/heads/").data) []
    else refS
  let nCommits ← pyLen commits
  let repoName ← pyGet repository ((r"name").data) (Json.str ((r"Unknown").data))
  let fullName ← pyGet repository ((r"full_name").data) (Json.str ((r"Unknown").data))
  let htmlUrl ← pyGet repository ((r"html_url").data) (Json.str ((r"#").data))
  let pusherName ← pyGet pusher ((r"name").data) (Json.str ((r"Unknown").data))
  let commitFields ← if truthy commits then do
      let latest ← pyLast commits
      let message ← pyGet latest ((r"message").data) (Json.str ((r"No message").data))
      let message ← pyTruncate 100 97 message
      let commitUrl ← pyGet latest ((r"url").data) (Json.str ((r"#").data))
      pure [({ name := (r"Latest Commit").data,
               value := (r"[").data ++ pyStr message ++ (r"](").data ++
                 pyStr commitUrl ++ (r")").data,
               inline := false } : NField)]
    else pure ([] : List NField)
  let avatarUrl ← pyGet pusher ((r"avatar_url").data) (Json.str [])
  pure {
    title := (r"📝 New Push to ").data ++ branch,
    description := (r"**").data ++ (toString nCommits).data ++
      (r" commit(s)** pushed to `").data ++ pyStr repoName ++ (r"`").data,
    color := 0x28a745,
    url := pyStr compareUrl,
    fields :=
      [{ name := (r"Repository").data,
         value := repoLinkValue fullName htmlUrl, inline := true },
       { name := (r"Pushed by").data, value := pyStr pusherName, inline := true },
       { name := (r"Commits").data, value := (toString nCommits).data,
         inline := true }] ++ commitFields,
    authorName := pyStr pusherName,
    authorIcon := pyStr avatarUrl,
    footer := (r"Patchy - GitHub Push Event").data,
    timestamp := none }

/-- `create_push_embed`, before the timestamp assignment: the five
`payload.get` extractions followed by the core above. -/
def create_push_embed_base (payload : Json) : Except PyErr Notification := do
  let repository ← pyGet payload ((r"repository").data) (Json.obj [])
  let pusher ← pyGet payload ((r"pusher").data) (Json.obj [])
  let commits ← pyGet payload ((r"commits").data) (Json.arr [])
  let ref ← pyGet payload ((r"ref").data) (Json.str [])
  let compareUrl ← pyGet payload ((r"compare").data) (Json.str [])
  pushEmbedCore repository pusher commits ref compareUrl

/-- `create_push_embed(payload)` invoked at instant `now`
(`discord.utils.utcnow()` returns `now`). -/
def create_push_embed (payload : Json) (now : Nat) : Except PyErr Notification :=
  (create_push_embed_base payload).map (fun e => { e with timestamp := some now })

/-- The pull-request action → color map. -/
def prColorMap : List (List Char × Nat) :=
  [((r"opened").data, 0x28a745), ((r"closed").data, 0xdc3545),
   ((r"merged").data, 0x6f42c1), ((r"reopened").data, 0x17a2b8)]

/-- Body of `create_pull_request_embed` after its three `payload.get`
extractions, before the timestamp assignment. -/
def prEmbedCore (pr action repository : Json) : Except PyErr Notification := do
  let color ← pyMapGet prColorMap 0x6c757d action
  let actionS ← asStr action
  let prTitle ← pyGet pr ((r"title").data) (Json.str ((r"No title").data))
  let prUrl ← pyGet pr ((r"html_url").data) (Json.str ((r"#").data))
  let prNumber ← pyGet pr ((r"number").data) (Json.str ((r"?").data))
  let prState ← pyGet pr ((r"state").data) (Json.str ((r"unknown").data))
  let prStateS ← asStr prState
  let fullName ← pyGet repository ((r"full_name").data) (Json.str ((r"Unknown").data))
  let htmlUrl ← pyGet repository ((r"html_url").data) (Json.str ((r"#").data))
  let user ← pyGet pr ((r"user").data) (Json.obj [])
  let login ← pyGet user ((r"login").data) (Json.str ((r"Unknown").data))
  let body ← pyGet pr ((r"body").data) (Json.str [])
  let bodyFields ← if truthy body then do
      let body ← pyTruncate 500 497 body
      pure [({ name := (r"Description").data, value := pyStr body,
               inline := false } : NField)]
    else pure ([] : List NField)
  let avatarUrl ← pyGet user ((r"avatar_url").data) (Json.str [])
  pure {
    title := (r"🔀 Pull Request ").data ++ pyTitle actionS,
    description := (r"**").data ++ pyStr prTitle ++ (r"**").data,
    color := color,
    url := pyStr prUrl,
    fields :=
      [{ name := (r"PR #").data ++ pyStr prNumber,
         value := (r"**").data ++ pyTitle prStateS ++ (r"**").data,
         inline := true },
       { name := (r"Repository").data,
         value := repoLinkValue fullName htmlUrl, inline := true },
       { name := (r"Author").data, value := pyStr login, inline := true }]
      ++ bodyFields,
    authorName := pyStr login,
    authorIcon := pyStr avatarUrl,
    footer := (r"Patchy - GitHub Pull Request Event").data,
    timestamp := none }

/-- `create_pull_request_embed`, before the timestamp assignment. -/
def create_pull_request_embed_base (payload : Json) : Except PyErr Notification := do
  let pr ← pyGet payload ((r"pull_request").data) (Json.obj [])
  let action ← pyGet payload ((r"action").data) (Json.str [])
  let repository ← pyGet payload ((r"repository").data) (Json.obj [])
  prEmbedCore pr action repository

/-- `create_pull_request_embed(payload)` invoked at instant `now`. -/
def create_pull_request_embed (payload : Json) (now : Nat) :
    Except PyErr Notification :=
  (create_pull_request_embed_base payload).map
    (fun e => { e with timestamp := some now })

/-- The issue action → color map. -/
def issueColorMap : List (List Char × Nat) :=
  [((r"opened").data, 0xdc3545), ((r"closed").data, 0x28a745),
   ((r"reopened").data, 0x17a2b8)]

/-- The list comprehension `[label.get("name", "") for label in labels[:5]]`
applied to the already-sliced label list. -/
def getNames : List Json → Except PyErr (List Json)
  | [] => .ok []
  | l :: ls => do
      let v ← pyGet l ((r"name").data) (Json.str [])
      let rest ← getNames ls
      pure (v :: rest)

/-- Body of `create_issue_embed` after its three `payload.get`
extractions, before the timestamp assignment. -/
def issueEmbedCore (issue action repository : Json) : Except PyErr Notification := do
  let color ← pyMapGet issueColorMap 0x6c757d action
  let actionS ← asStr action
  let issueTitle ← pyGet issue ((r"title").data) (Json.str ((r"No title").data))
  let issueUrl ← pyGet issue ((r"html_url").data) (Json.str ((r"#").data))
  let issueNumber ← pyGet issue ((r"number").data) (Json.str ((r"?").data))
  let issueState ← pyGet issue ((r"state").data) (Json.str ((r"unknown").data))
  let issueStateS ← asStr issueState
  let fullName ← pyGet repository ((r"full_name").data) (Json.str ((r"Unknown").data))
  let htmlUrl ← pyGet repository ((r"html_url").data) (Json.str ((r"#").data))
  let user ← pyGet issue ((r"user").data) (Json.obj [])
  let login ← pyGet user ((r"login").data) (Json.str ((r"Unknown").data))
  let labels ← pyGet issue ((r"labels").data) (Json.arr [])
  let labelFields ← if truthy labels then do
      let firstFive ← pySlice5 labels
      let labelNames ← getNames firstFive
      let names ← strListE labelNames
      pure [({ name := (r"Labels").data, value := pyJoin ((r", ").data) names,
               inline := false } : NField)]
    else pure ([] : List NField)
  let avatarUrl ← pyGet user ((r"avatar_url").data) (Json.str [])
  pure {
    title := (r"🐛 Issue ").data ++ pyTitle actionS,
    description := (r"**").data ++ pyStr issueTitle ++ (r"**").data,
    color := color,
    url := pyStr issueUrl,
    fields :=
      [{ name := (r"Issue #").data ++ pyStr issueNumber,
         value := (r"**").data ++ pyTitle issueStateS ++ (r"**").data,
         inline := true },
       { name := (r"Repository").data,
         value := repoLinkValue fullName htmlUrl, inline := true },
       { name := (r"Author").data, value := pyStr login, inline := true }]
      ++ labelFields,
    authorName := pyStr login,
    authorIcon := pyStr avatarUrl,
    footer := (r"Patchy - GitHub Issue Event").data,
    timestamp := none }

/-- `create_issue_embed`, before the timestamp assignment. -/
def create_issue_embed_base (payload : Json) : Except PyErr Notification := do
  let issue ← pyGet payload ((r"issue").data) (Json.obj [])
  let action ← pyGet payload ((r"action").data) (Json.str [])
  let repository ← pyGet payload ((r"repository").data) (Json.obj [])
  issueEmbedCore issue action repository

/-- `create_issue_embed(payload)` invoked at instant `now`. -/
def create_issue_embed (payload : Json) (now : Nat) : Except PyErr Notification :=
  (create_issue_embed_base payload).map (fun e => { e with timestamp := some now })

/-- Body of `create_release_embed` after its three `payload.get`
extractions, before the timestamp assignment. -/
def releaseEmbedCore (release action repository : Json) :
    Except PyErr Notification := do
  let actionS ← asStr action
  let tagDefault ← pyGet release ((r"tag_name").data) (Json.str ((r"No title").data))
  let releaseName ← pyGet release ((r"name").data) tagDefault
  let releaseUrl ← pyGet release ((r"html_url").data) (Json.str ((r"#").data))
  let tagName ← pyGet release ((r"tag_name").data) (Json.str ((r"No tag").data))
  let fullName ← pyGet repository ((r"full_name").data) (Json.str ((r"Unknown").data))
  let htmlUrl ← pyGet repository ((r"html_url").data) (Json.str ((r"#").data))
  let author ← pyGet release ((r"author").data) (Json.obj [])
  let login ← pyGet author ((r"login").data) (Json.str ((r"Unknown").data))
  let body ← pyGet release ((r"body").data) (Json.str [])
  let bodyFields ← if truthy body then do
      let body ← pyTruncate 500 497 body
      pure [({ name := (r"Description").data, value := pyStr body,
               inline := false } : NField)]
    else pure ([] : List NField)
  let avatarUrl ← pyGet author ((r"avatar_url").data) (Json.str [])
  pure {
    title := (r"🚀 Release ").data ++ pyTitle actionS,
    description := (r"**").data ++ pyStr releaseName ++ (r"**").data,
    color := 0xffc107,
    url := pyStr releaseUrl,
    fields :=
      [{ name := (r"Tag").data, value := pyStr tagName, inline := true },
       { name := (r"Repository").data,
         value := repoLinkValue fullName htmlUrl, inline := true },
       { name := (r"Author").data, value := pyStr login, inline := true }]
      ++ bodyFields,
    authorName := pyStr login,
    authorIcon := pyStr avatarUrl,
    footer := (r"Patchy - GitHub Release Event").data,
    timestamp := none }

/-- `create_release_embed`, before the timestamp assignment. -/
def create_release_embed_base (payload : Json) : Except PyErr Notification := do
  let release ← pyGet payload ((r"release").data) (Json.obj [])
  let action ← pyGet payload ((r"action").data) (Json.str [])
  let repository ← pyGet payload ((r"repository").data) (Json.obj [])
  releaseEmbedCore release action repository

/-- `create_release_embed(payload)` invoked at instant `now`. -/
def create_release_embed (payload : Json) (now : Nat) : Except PyErr Notification :=
  (create_release_embed_base payload).map
    (fun e => { e with timestamp := some now })

/-- The create-event ref_type → emoji map. -/
def createEmojiMap : List (List Char × List Char) :=
  [((r"branch").data, (r"🌿").data), ((r"tag").data, (r"🏷️").data)]

/-- `create_create_embed`, before the timestamp assignment. -/
def create_create_embed_base (payload : Json) : Except PyErr Notification := do
  let ref ← pyGet payload ((r"ref").data) (Json.str [])
  let refType ← pyGet payload ((r"ref_type").data) (Json.str [])
  let repository ← pyGet payload ((r"repository").data) (Json.obj [])
  let sender ← pyGet payload ((r"sender").data) (Json.obj [])
  let emoji ← pyMapGet createEmojiMap ((r"📝").data) refType
  let refTypeS ← asStr refType
  let repoName ← pyGet repository ((r"name").data) (Json.str ((r"Unknown").data))
  let repoUrl ← pyGet repository ((r"html_url").data) (Json.str ((r"#").data))
  let fullName ← pyGet repository ((r"full_name").data) (Json.str ((r"Unknown").data))
  let htmlUrl ← pyGet repository ((r"html_url").data) (Json.str ((r"#").data))
  let login ← pyGet sender ((r"login").data) (Json.str ((r"Unknown").data))
  let avatarUrl ← pyGet sender ((r"avatar_url").data) (Json.str [])
  pure {
    title := emoji ++ (r" ").data ++ pyTitle refTypeS ++ (r" Created").data,
    description := (r"**").data ++ pyStr ref ++ (r"** created in `").data ++
      pyStr repoName ++ (r"`").data,
    color := 0x17a2b8,
    url := pyStr repoUrl,
    fields :=
      [{ name := (r"Repository").data,
         value := repoLinkValue fullName htmlUrl, inline := true },
       { name := (r"Created by").data, value := pyStr login, inline := true }],
    authorName := pyStr login,
    authorIcon := pyStr avatarUrl,
    footer := (r"Patchy - GitHub Create Event").data,
    timestamp := none }

/-- `create_create_embed(payload)` invoked at instant `now`. -/
def create_create_embed (payload : Json) (now : Nat) : Except PyErr Notification :=
  (create_create_embed_base payload).map
    (fun e => { e with timestamp := some now })

/-- The delete-event ref_type → emoji map (all entries and the default
agree, but lookup with an unhashable key still raises). -/
def deleteEmojiMap : List (List Char × List Char) :=
  [((r"branch").data, (r"🗑️").data), ((r"tag").data, (r"🗑️").data)]

/-- `create_delete_embed`, before the timestamp assignment. -/
def create_delete_embed_base (payload : Json) : Except PyErr Notification := do
  let ref ← pyGet payload ((r"ref").data) (Json.str [])
  let refType ← pyGet payload ((r"ref_type").data) (Json.str [])
  let repository ← pyGet payload ((r"repository").data) (Json.obj [])
  let sender ← pyGet payload ((r"sender").data) (Json.obj [])
  let emoji ← pyMapGet deleteEmojiMap ((r"🗑️").data) refType
  let refTypeS ← asStr refType
  let repoName ← pyGet repository ((r"name").data) (Json.str ((r"Unknown").data))
  let repoUrl ← pyGet repository ((r"html_url").data) (Json.str ((r"#").data))
  let fullName ← pyGet repository ((r"full_name").data) (Json.str ((r"Unknown").data))
  let htmlUrl ← pyGet repository ((r"html_url").data) (Json.str ((r"#").data))
  let login ← pyGet sender ((r"login").data) (Json.str ((r"Unknown").data))
  let avatarUrl ← pyGet sender ((r"avatar_url").data) (Json.str [])
  pure {
    title := emoji ++ (r" ").data ++ pyTitle refTypeS ++ (r" Deleted").data,
    description := (r"**").data ++ pyStr ref ++ (r"** deleted from `").data ++
      pyStr repoName ++ (r"`").data,
    color := 0xdc3545,
    url := pyStr repoUrl,
    fields :=
      [{ name := (r"Repository").data,
         value := repoLinkValue fullName htmlUrl, inline := true },
       { name := (r"Deleted by").data, value := pyStr login, inline := true }],
    authorName := pyStr login,
    authorIcon := pyStr avatarUrl,
    footer := (r"Patchy - GitHub Delete Event").data,
    timestamp := none }

/-- `create_delete_embed(payload)` invoked at instant `now`. -/
def create_delete_embed (payload : Json) (now : Nat) : Except PyErr Notification :=
  (create_delete_embed_base payload).map
    (fun e => { e with timestamp := some now })

/-- The dispatch inside `create_event_embed`'s `try` block: the six
supported event types call their builders, anything else returns `None`. -/
def create_event_embed_raw (eventType : List Char) (payload : Json)
    (now : Nat) : Except PyErr (Option Notification) :=
  if eventType = (r"push").data then
    (create_push_embed payload now).map some
  else if eventType = (r"pull_request").data then
    (create_pull_request_embed payload now).map some
  else if eventType = (r"issues").data then
    (create_issue_embed payload now).map some
  else if eventType = (r"release").data then
    (create_release_embed payload now).map some
  else if eventType = (r"create").data then
    (create_create_embed payload now).map some
  else if eventType = (r"delete").data then
    (create_delete_embed payload now).map some
  else
    .ok none

/-- `create_event_embed(event_type, payload)` invoked at instant `now`:
the surrounding `try`/`except` converts any exception to `None`. -/
def create_event_embed (eventType : List Char) (payload : Json)
    (now : Nat) : Option Notification :=
  match create_event_embed_raw eventType payload now with
  | .ok r => r
  | .error _ => none

/-! ## Notification Dispatcher (`send_github_notification`, src/discord_bot.py) -/

/-- Outcome of `self.target_channel.send(embed=embed)`: it either succeeds
or raises one of the exception classes distinguished by the handler. -/
inductive SendOutcome where
  | success
  | forbidden
  | httpException (msg : List Char)
  | otherError (msg : List Char)
deriving DecidableEq

/-- The raw chat-API send call: raises (as `Except.error`) for every
non-success outcome. -/
def channelSend : SendOutcome → Except SendOutcome Unit
  | .success => .ok ()
  | e => .error e

/-- `send_github_notification(embed)`.  `targetChannel` is
`self.target_channel` (`none` while the channel is not established);
`outcome` is how the underlying send call behaves.  Returns the boolean
result paired with the number of send calls issued. -/
def send_github_notification (targetChannel : Option Nat)
    (outcome : SendOutcome) : Bool × Nat :=
  match targetChannel with
  | none => (false, 0)
  | some _ =>
      match channelSend outcome with
      | .ok _ => (true, 1)
      | .error .forbidden => (false, 1)
      | .error (.httpException _) => (false, 1)
      | .error _ => (false, 1)

/-! ## Ingestion Endpoint (`github_webhook`, src/webhook_server.py) -/

/-- Observable outcome of one `POST /webhook` request: the HTTP status,
whether `json.loads` was invoked on the body, and the background tasks
scheduled (event type paired with the decoded payload). -/
structure WebhookResult where
  status : Nat
  jsonParsed : Bool
  scheduled : List (List Char × Json)

/-- `github_webhook(request)`.  `secret` is the configured webhook secret,
`body` the raw request body, `sigHeader`/`eventHeader` the
`X-Hub-Signature-256` and `X-GitHub-Event` headers (empty when absent),
and `parsed` the result `json.loads(body.decode('utf-8'))` would produce
(`none` for malformed JSON — the parser itself is the Python standard
library and is modelled as this oracle input). -/
def github_webhook (secret : List Char) (body : List Nat)
    (sigHeader eventHeader : List Char) (parsed : Option Json) : WebhookResult :=
  if verify_github_signature secret body sigHeader = false then
    { status := 401, jsonParsed := false, scheduled := [] }
  else
    match parsed with
    | none => { status := 400, jsonParsed := true, scheduled := [] }
    | some payload =>
        { status := 200, jsonParsed := true, scheduled := [(eventHeader, payload)] }

deriving instance DecidableEq for Except

/-! ## Auxiliary definitions used by the theorems below -/

/-- Strip the timestamp, leaving the payload-determined part of a
notification. -/
def stripTimestamp (n : Notification) : Notification := { n with timestamp := none }

/-- The event types `create_event_embed` dispatches on. -/
def supportedEvents : List (List Char) :=
  [(r"push").data, (r"pull_request").data, (r"issues").data,
   (r"release").data, (r"create").data, (r"delete").data]

/-- The event dispatch of `create_event_embed` with the timestamp
assignment factored out (each builder is its `_base` stage). -/
def eventEmbedBase (eventType : List Char) (payload : Json) :
    Except PyErr (Option Notification) :=
  if eventType = (r"push").data then
    (create_push_embed_base payload).map some
  else if eventType = (r"pull_request").data then
    (create_pull_request_embed_base payload).map some
  else if eventType = (r"issues").data then
    (create_issue_embed_base payload).map some
  else if eventType = (r"release").data then
    (create_release_embed_base payload).map some
  else if eventType = (r"create").data then
    (create_create_embed_base payload).map some
  else if eventType = (r"delete").data then
    (create_delete_embed_base payload).map some
  else
    .ok none

/-- The `ref` lookup of the push builder. -/
def pushRef (payload : Json) : Except PyErr Json :=
  pyGet payload ((r"ref").data) (Json.str [])

/-- The `payload["pull_request"].get("body", "")` lookup of the
pull-request builder. -/
def prBody (payload : Json) : Except PyErr Json := do
  let pr ← pyGet payload ((r"pull_request").data) (Json.obj [])
  pyGet pr ((r"body").data) (Json.str [])

/-- The `payload["release"].get("body", "")` lookup of the release
builder. -/
def releaseBody (payload : Json) : Except PyErr Json := do
  let release ← pyGet payload ((r"release").data) (Json.obj [])
  pyGet release ((r"body").data) (Json.str [])

/-- The `payload["issue"].get("labels", [])` lookup of the issue
builder. -/
def issueLabels (payload : Json) : Except PyErr Json := do
  let issue ← pyGet payload ((r"issue").data) (Json.obj [])
  pyGet issue ((r"labels").data) (Json.arr [])

/-- Label names of an already-sliced label list as strings, as consumed
by `", ".join`. -/
def labelStrs (ls : List Json) : Except PyErr (List (List Char)) := do
  let names ← getNames ls
  strListE names

/-- The push payload of the specification's end-to-end example. -/
def pushPayloadEx : Json := Json.obj
  [((r"ref").data, Json.str ((r"refs/heads/main").data)),
   ((r"repository").data, Json.obj [((r"name").data, Json.str ((r"r").data))]),
   ((r"pusher").data, Json.obj [((r"name").data, Json.str ((r"u").data))]),
   ((r"commits").data, Json.arr
      [Json.obj [((r"message").data, Json.str ((r"m").data)),
                 ((r"url").data, Json.str ((r"x").data))]])]

/-- The notification the push builder produces for `pushPayloadEx` at
instant `t`. -/
def pushNotifEx (t : Nat) : Notification :=
  { title := (r"📝 New Push to main").data,
    description := (r"**1 commit(s)** pushed to `r`").data,
    color := 0x28a745,
    url := [],
    fields :=
      [{ name := (r"Repository").data, value := (r"[Unknown](#)").data,
         inline := true },
       { name := (r"Pushed by").data, value := (r"u").data, inline := true },
       { name := (r"Commits").data, value := (r"1").data, inline := true },
       { name := (r"Latest Commit").data, value := (r"[m](x)").data,
         inline := false }],
    authorName := (r"u").data,
    authorIcon := [],
    footer := (r"Patchy - GitHub Push Event").data,
    timestamp := some t }

/-- A push payload whose ref contains the branch marker twice. -/
def pushPayloadNested : Json := Json.obj
  [((r"ref").data, Json.str ((r"refs/heads/refs/heads/x").data))]

/-- A 65-character ASCII secret, longer than the HMAC block size. -/
def collisionSecretA : List Char :=
  ((r"000000000e1e2a78").data) ++ List.replicate 49 (Char.ofNat 97)

/-- The UTF-8 decoding of `SHA-256(utf8(collisionSecretA))` — a valid
24-character Python string (the digest happens to be valid UTF-8 with no
NUL byte), distinct from `collisionSecretA` but HMAC-equivalent to it,
because HMAC replaces keys longer than 64 bytes by their SHA-256
digest. -/
def collisionSecretB : List Char :=
  [68, 101, 1059, 105, 59568, 242, 1674, 274, 33, 5, 52, 23, 1694, 49, 112,
   100, 41, 39, 97, 8, 80, 1091, 60, 39].map Char.ofNat

/-- The example request body bytes used by the signature
counterexample. -/
def payloadBytesEx : List Nat := utf8Encode ((r"payload").data)

/-- A pull-request payload with a 600-character body. -/
def prPayloadLong : Json := Json.obj
  [((r"pull_request").data, Json.obj
      [((r"body").data, Json.str (List.replicate 600 (Char.ofNat 97)))])]

/-- The notification rendered from `prPayloadLong` at instant 0. -/
def prNotifLong : Notification :=
  { title := (r"🔀 Pull Request ").data,
    description := (r"**No title**").data,
    color := 0x6c757d,
    url := (r"#").data,
    fields :=
      [{ name := (r"PR #?").data, value := (r"**Unknown**").data, inline := true },
       { name := (r"Repository").data, value := (r"[Unknown](#)").data,
         inline := true },
       { name := (r"Author").data, value := (r"Unknown").data, inline := true },
       { name := (r"Description").data,
         value := List.replicate 497 (Char.ofNat 97) ++ (r"...").data,
         inline := false }],
    authorName := (r"Unknown").data,
    authorIcon := [],
    footer := (r"Patchy - GitHub Pull Request Event").data,
    timestamp := some 0 }

/-- A pull-request payload whose body is the non-empty list `[1]`. -/
def prPayloadListBody : Json := Json.obj
  [((r"pull_request").data, Json.obj
      [((r"body").data, Json.arr [Json.num 1])])]

/-- Eight labels named `l1` … `l8`. -/
def issueLabelListEx : List Json :=
  [(r"l1"), (r"l2"), (r"l3"), (r"l4"), (r"l5"), (r"l6"), (r"l7"), (r"l8")].map
    (fun s => Json.obj [((r"name").data, Json.str s.data)])

/-- An issues payload with eight labels. -/
def issuePayloadEx : Json := Json.obj
  [((r"issue").data, Json.obj
      [((r"labels").data, Json.arr issueLabelListEx)]),
   ((r"action").data, Json.str ((r"opened").data))]

/-- The notification rendered from `issuePayloadEx` at instant 0. -/
def issueNotifEx : Notification :=
  { title := (r"🐛 Issue Opened").data,
    description := (r"**No title**").data,
    color := 0xdc3545,
    url := (r"#").data,
    fields :=
      [{ name := (r"Issue #?").data, value := (r"**Unknown**").data,
         inline := true },
       { name := (r"Repository").data, value := (r"[Unknown](#)").data,
         inline := true },
       { name := (r"Author").data, value := (r"Unknown").data, inline := true },
       { name := (r"Labels").data, value := (r"l1, l2, l3, l4, l5").data,
         inline := false }],
    authorName := (r"Unknown").data,
    authorIcon := [],
    footer := (r"Patchy - GitHub Issue Event").data,
    timestamp := some 0 }

/-- A pull-request payload with the two-character body `hi`. -/
def prPayloadShort : Json := Json.obj
  [((r"pull_request").data, Json.obj
      [((r"body").data, Json.str ((r"hi").data))])]

/-- The notification rendered from `prPayloadShort` at instant 0. -/
def prNotifShort : Notification :=
  { title := (r"🔀 Pull Request ").data,
    description := (r"**No title**").data,
    color := 0x6c757d,
    url := (r"#").data,
    fields :=
      [{ name := (r"PR #?").data, value := (r"**Unknown**").data, inline := true },
       { name := (r"Repository").data, value := (r"[Unknown](#)").data,
         inline := true },
       { name := (r"Author").data, value := (r"Unknown").data, inline := true },
       { name := (r"Description").data, value := (r"hi").data,
         inline := false }],
    authorName := (r"Unknown").data,
    authorIcon := [],
    footer := (r"Patchy - GitHub Pull Request Event").data,
    timestamp := some 0 }

/-- A release payload with the two-character body `hi`. -/
def relPayloadShort : Json := Json.obj
  [((r"release").data, Json.obj [((r"body").data, Json.str ((r"hi").data))])]

/-- The notification rendered from `relPayloadShort` at instant 0. -/
def relNotifShort : Notification :=
  { title := (r"🚀 Release ").data,
    description := (r"**No title**").data,
    color := 0xffc107,
    url := (r"#").data,
    fields :=
      [{ name := (r"Tag").data, value := (r"No tag").data, inline := true },
       { name := (r"Repository").data, value := (r"[Unknown](#)").data,
         inline := true },
       { name := (r"Author").data, value := (r"Unknown").data, inline := true },
       { name := (r"Description").data, value := (r"hi").data,
         inline := false }],
    authorName := (r"Unknown").data,
    authorIcon := [],
    footer := (r"Patchy - GitHub Release Event").data,
    timestamp := some 0 }

/-! ## Helper lemmas -/

theorem except_bind_ok {α β : Type} {x : Except PyErr α}
    {f : α → Except PyErr β} {b : β} :
    (x >>= f) = .ok b ↔ ∃ a, x = .ok a ∧ f a = .ok b := by
  cases x <;> simp [Bind.bind, Except.bind]

theorem except_map_ok {α β : Type} {x : Except PyErr α} {f : α → β} {b : β} :
    (Except.map f x) = .ok b ↔ ∃ a, x = .ok a ∧ f a = b := by
  cases x <;> simp [Except.map]

/-! ## Claims -/

/-- C2, amended: a signature header that does not start with `sha256=` is
rejected whenever the configured secret is non-empty; with an empty
secret, `verify_github_signature` returns `true` unconditionally, before
the header format is ever examined. -/
theorem claim_C2 :
    (∀ (secret : List Char) (payload : List Nat) (signature : List Char),
      secret ≠ [] →
      pyStartsWith ((r"sha256=").data) signature = false →
      verify_github_signature secret payload signature = false) ∧
    (∀ (payload : List Nat) (signature : List Char),
      verify_github_signature [] payload signature = true) := by
  constructor
  · intro secret payload signature hne hpre
    simp [verify_github_signature, hne, hpre]
  · intro payload signature
    simp [verify_github_signature]

/-- C2 witness: concrete instances of both parts. -/
theorem claim_C2_witness :
    verify_github_signature ((r"k").data) [1, 2, 3] ((r"bogus").data) = false ∧
    verify_github_signature [] [1, 2, 3] ((r"bogus").data) = true :=
  ⟨claim_C2.1 _ _ _ (by decide) (by decide), claim_C2.2 [1, 2, 3] ((r"bogus").data)⟩

/-- C2 counterexample: with an empty configured secret and a header that
does not start with `sha256=`, verification returns `true`, not `false`
as the claim states. -/
theorem claim_C2_counterexample :
    verify_github_signature [] [1, 2, 3] ((r"bogus").data) = true ∧
    pyStartsWith ((r"sha256=").data) ((r"bogus").data) = false := by
  constructor <;> decide

/-- C3: when signature verification fails, the endpoint answers 401,
never invokes `json.loads`, and schedules no background dispatch task. -/
theorem claim_C3 (secret : List Char) (body : List Nat)
    (sigHeader eventHeader : List Char) (parsed : Option Json)
    (hv : verify_github_signature secret body sigHeader = false) :
    github_webhook secret body sigHeader eventHeader parsed =
      { status := 401, jsonParsed := false, scheduled := [] } := by
  simp [github_webhook, hv]

/-- C3 witness: a concrete request with a bad signature. -/
theorem claim_C3_witness :
    verify_github_signature ((r"k").data) [] ((r"bad").data) = false ∧
    github_webhook ((r"k").data) [] ((r"bad").data) ((r"push").data)
        (some Json.null) =
      { status := 401, jsonParsed := false, scheduled := [] } :=
  ⟨by decide, claim_C3 _ _ _ _ _ (by decide)⟩

/-- C9: dispatch returns `false` with no send call when the channel is
unestablished; with a channel, exactly one send call is issued — never a
retry — and the result is `true` exactly when the send succeeded, every
raising outcome being converted to `false`. -/
theorem claim_C9 (targetChannel : Option Nat) (outcome : SendOutcome) :
    (targetChannel = none →
      send_github_notification targetChannel outcome = (false, 0)) ∧
    (∀ c, targetChannel = some c →
      send_github_notification targetChannel outcome =
        (if outcome = .success then true else false, 1)) ∧
    (send_github_notification targetChannel outcome).2 ≤ 1 := by
  refine ⟨?_, ?_, ?_⟩ <;>
    cases targetChannel <;> cases outcome <;>
      simp [send_github_notification, channelSend]

/-- C9 witness: unestablished channel, a raising send, and a successful
send. -/
theorem claim_C9_witness :
    send_github_notification none .success = (false, 0) ∧
    send_github_notification (some 1) (.httpException ((r"http 500").data)) =
      (false, 1) ∧
    send_github_notification (some 1) .forbidden = (false, 1) ∧
    send_github_notification (some 1) .success = (true, 1) := by
  refine ⟨(claim_C9 none .success).1 rfl, ?_, ?_, ?_⟩
  · have h := (claim_C9 (some 1) (.httpException ((r"http 500").data))).2.1 1 rfl
    simpa using h
  · have h := (claim_C9 (some 1) .forbidden).2.1 1 rfl
    simpa using h
  · have h := (claim_C9 (some 1) .success).2.1 1 rfl
    simpa using h

theorem map_some_comm (b : Except PyErr Notification) (t : Nat) :
    (b.map (fun e => { e with timestamp := some t })).map some =
      (b.map some).map (Option.map (fun e => { e with timestamp := some t })) := by
  cases b <;> rfl

theorem create_event_embed_raw_eq (eventType : List Char) (payload : Json)
    (t : Nat) :
    create_event_embed_raw eventType payload t =
      (eventEmbedBase eventType payload).map
        (Option.map (fun e => { e with timestamp := some t })) := by
  unfold create_event_embed_raw eventEmbedBase
  unfold create_push_embed create_pull_request_embed create_issue_embed
    create_release_embed create_create_embed create_delete_embed
  by_cases h1 : eventType = (r"push").data
  · simp [h1, map_some_comm]
  by_cases h2 : eventType = (r"pull_request").data
  · simp [h1, h2, map_some_comm]
  by_cases h3 : eventType = (r"issues").data
  · simp [h1, h2, h3, map_some_comm]
  by_cases h4 : eventType = (r"release").data
  · simp [h1, h2, h3, h4, map_some_comm]
  by_cases h5 : eventType = (r"create").data
  · simp [h1, h2, h3, h4, h5, map_some_comm]
  by_cases h6 : eventType = (r"delete").data
  · simp [h1, h2, h3, h4, h5, h6, map_some_comm]
  simp [h1, h2, h3, h4, h5, h6, Except.map]

/-- C8: unsupported event types yield `None` from the renderer (treated
as success, never an exception), any exception inside a builder is caught
and converted to `None`, and the endpoint answers 200 for a verified,
parsed request regardless of the event type. -/
theorem claim_C8 (eventType : List Char) (payload : Json) (now : Nat) :
    (eventType ∉ supportedEvents →
      create_event_embed_raw eventType payload now = .ok none ∧
      create_event_embed eventType payload now = none) ∧
    (∀ e, create_event_embed_raw eventType payload now = .error e →
      create_event_embed eventType payload now = none) ∧
    (∀ (secret : List Char) (body : List Nat) (sigHeader : List Char) (p : Json),
      verify_github_signature secret body sigHeader = true →
      (github_webhook secret body sigHeader eventType (some p)).status = 200) := by
  refine ⟨?_, ?_, ?_⟩
  · intro hm
    simp only [supportedEvents, List.mem_cons, List.mem_singleton, not_or] at hm
    obtain ⟨h1, h2, h3, h4, h5, h6, -⟩ := hm
    constructor
    · simp [create_event_embed_raw, h1, h2, h3, h4, h5, h6]
    · simp [create_event_embed, create_event_embed_raw, h1, h2, h3, h4, h5, h6]
  · intro e he
    simp [create_event_embed, he]
  · intro secret body sigHeader p hv
    simp [github_webhook, hv]

/-- C8 witness: an unknown event type renders to `None` with the endpoint
answering 200, and a push payload whose `ref` is a number raises inside
the builder and is converted to `None`. -/
theorem claim_C8_witness :
    create_event_embed ((r"unknown_event").data) (Json.obj []) 0 = none ∧
    create_event_embed_raw ((r"push").data)
        (Json.obj [((r"ref").data, Json.num 5)]) 0 = .error .attributeError ∧
    create_event_embed ((r"push").data)
        (Json.obj [((r"ref").data, Json.num 5)]) 0 = none ∧
    (github_webhook [] [] [] ((r"unknown_event").data)
        (some (Json.obj []))).status = 200 := by
  refine ⟨((claim_C8 _ (Json.obj []) 0).1 (by decide)).2, by decide, ?_, ?_⟩
  · exact (claim_C8 _ _ 0).2.1 .attributeError (by decide)
  · exact (claim_C8 ((r"unknown_event").data) (Json.obj []) 0).2.2 [] [] []
      (Json.obj []) (by decide)

/-- C4, amended: for a fixed event type and payload every field of the
rendered notification except the timestamp is identical across
invocations; the timestamp equals the clock reading of the invocation
(`discord.utils.utcnow()`), so renderings at different instants differ in
exactly that field. -/
theorem claim_C4 (eventType : List Char) (payload : Json) (t₁ t₂ : Nat) :
    (create_event_embed eventType payload t₁).map stripTimestamp =
      (create_event_embed eventType payload t₂).map stripTimestamp ∧
    (∀ n, create_event_embed eventType payload t₁ = some n →
      n.timestamp = some t₁) := by
  constructor
  · unfold create_event_embed
    rw [create_event_embed_raw_eq, create_event_embed_raw_eq]
    cases hb : eventEmbedBase eventType payload with
    | error e => rfl
    | ok o => cases o <;> rfl
  · intro n h
    unfold create_event_embed at h
    rw [create_event_embed_raw_eq] at h
    cases hb : eventEmbedBase eventType payload with
    | error e => rw [hb] at h; simp [Except.map] at h
    | ok o =>
        rw [hb] at h
        cases o with
        | none => simp [Except.map] at h
        | some e =>
            simp only [Except.map, Option.map] at h
            injection h with h
            rw [← h]

/-- C4 witness: for the example push payload, renderings at instants 1
and 2 agree outside the timestamp, and the timestamp is the invocation
instant. -/
theorem claim_C4_witness :
    (create_event_embed ((r"push").data) pushPayloadEx 1).map stripTimestamp =
      (create_event_embed ((r"push").data) pushPayloadEx 2).map stripTimestamp ∧
    (pushNotifEx 1).timestamp = some 1 :=
  ⟨(claim_C4 ((r"push").data) pushPayloadEx 1 2).1,
   (claim_C4 ((r"push").data) pushPayloadEx 1 2).2 (pushNotifEx 1) (by decide)⟩

/-- C4 counterexample: two invocations on the same event type and payload
at different instants yield notifications that are not byte-identical
(their timestamps differ). -/
theorem claim_C4_counterexample :
    create_event_embed ((r"push").data) pushPayloadEx 0 ≠
      create_event_embed ((r"push").data) pushPayloadEx 1 := by decide

theorem hexChar_lt (n : Nat) : (hexChar n).toNat < 128 := by
  unfold hexChar
  rcases n with _|_|_|_|_|_|_|_|_|_|_|_|_|_|_|_|m
  case succ => rw [List.getD_eq_default] <;> simp
  all_goals decide

theorem hexByte_ascii (b : Nat) : isAsciiStr (hexByte b) = true := by
  simp [isAsciiStr, hexByte, hexChar_lt]

theorem hexdigest_cons (b : Nat) (bs : List Nat) :
    hexdigest (b :: bs) = hexByte b ++ hexdigest bs := by
  simp [hexdigest]

theorem hexdigest_ascii (bs : List Nat) : isAsciiStr (hexdigest bs) = true := by
  induction bs with
  | nil => decide
  | cons b bs ih =>
      rw [hexdigest_cons]
      have hb := hexByte_ascii b
      simp [isAsciiStr] at hb ih ⊢
      exact ⟨hb, ih⟩

theorem startsWith_append (p s : List Char) : pyStartsWith p (p ++ s) = true := by
  simp [pyStartsWith, List.isPrefixOf_iff_prefix]

theorem drop7_append (s : List Char) : (((r"sha256=").data) ++ s).drop 7 = s := by
  have h : ((r"sha256=").data).length = 7 := rfl
  rw [← h, List.drop_left]

/-- C1, amended: a payload signed with the configured secret always
verifies; verification under a different configured secret fails exactly
when the two HMAC-SHA256 hexdigests differ.  `S' ≠ S` alone does not
imply failure: HMAC hashes keys longer than its 64-byte block first, so
distinct secrets can be HMAC-equivalent (see the counterexample). -/
theorem claim_C1 (payload : List Nat) (secret secret' : List Char)
    (h : secret ≠ []) (h' : secret' ≠ []) :
    verify_github_signature secret payload
      (((r"sha256=").data) ++
        hexdigest (hmacSha256 (utf8Encode secret) payload)) = true ∧
    (hexdigest (hmacSha256 (utf8Encode secret') payload) ≠
        hexdigest (hmacSha256 (utf8Encode secret) payload) →
      verify_github_signature secret' payload
        (((r"sha256=").data) ++
          hexdigest (hmacSha256 (utf8Encode secret) payload)) = false) := by
  constructor
  · simp only [verify_github_signature, if_neg h, startsWith_append,
      Bool.not_true, Bool.false_eq_true, if_false, drop7_append,
      compare_digest, hexdigest_ascii, Bool.and_self, if_true]
    simp [hexdigest_ascii]
  · intro hne
    simp only [verify_github_signature, if_neg h', startsWith_append,
      Bool.not_true, Bool.false_eq_true, if_false, drop7_append,
      compare_digest, hexdigest_ascii, Bool.and_self, if_true]
    simp [hexdigest_ascii, hne]

set_option maxRecDepth 100000 in
/-- C1 witness: the secret `key` verifies its own signature over the
example payload; the different, non-HMAC-equivalent secret `yek` rejects
it. -/
theorem claim_C1_witness :
    verify_github_signature ((r"key").data) payloadBytesEx
      (((r"sha256=").data) ++
        hexdigest (hmacSha256 (utf8Encode ((r"key").data)) payloadBytesEx)) = true ∧
    verify_github_signature ((r"yek").data) payloadBytesEx
      (((r"sha256=").data) ++
        hexdigest (hmacSha256 (utf8Encode ((r"key").data)) payloadBytesEx)) = false :=
  ⟨(claim_C1 payloadBytesEx ((r"key").data) ((r"yek").data)
      (by decide) (by decide)).1,
   (claim_C1 payloadBytesEx ((r"key").data) ((r"yek").data)
      (by decide) (by decide)).2 (by decide)⟩

set_option maxRecDepth 100000 in
/-- C1 counterexample: two distinct non-empty secrets for which the
signature produced with one verifies under the other: HMAC replaces the
65-byte secret `collisionSecretA` by its SHA-256 digest, whose UTF-8
decoding is the 24-character secret `collisionSecretB`. -/
theorem claim_C1_counterexample :
    collisionSecretB ≠ collisionSecretA ∧
    collisionSecretA ≠ [] ∧ collisionSecretB ≠ [] ∧
    verify_github_signature collisionSecretB payloadBytesEx
      (((r"sha256=").data) ++
        hexdigest (hmacSha256 (utf8Encode collisionSecretA) payloadBytesEx)) =
      true :=
  ⟨by decide, by decide, by decide, by decide⟩

/-- C7, amended: the branch shown in the push title is `ref` with every
occurrence of `"refs/heads/"` removed (Python `str.replace` semantics)
when `ref` starts with that text; when it does not, `ref` is used
unmodified.  Stripping only the first occurrence is not what the code
does (see the counterexample). -/
theorem claim_C7 (payload : Json) (now : Nat) (n : Notification) (refS : List Char)
    (href : pushRef payload = .ok (Json.str refS))
    (hr : create_push_embed payload now = .ok n) :
    n.title = (r"📝 New Push to ").data ++
      (if pyStartsWith ((r"refs/heads/").data) refS then
        pyReplace refS ((r"refs/heads/").data) [] else refS) := by
  rw [create_push_embed, except_map_ok] at hr
  obtain ⟨e, hbase, hn⟩ := hr
  rw [create_push_embed_base] at hbase
  rw [except_bind_ok] at hbase
  obtain ⟨repository, hrep, hbase⟩ := hbase
  rw [except_bind_ok] at hbase
  obtain ⟨pusher, hpus, hbase⟩ := hbase
  rw [except_bind_ok] at hbase
  obtain ⟨commits, hcom, hbase⟩ := hbase
  rw [except_bind_ok] at hbase
  obtain ⟨ref, hrefv, hbase⟩ := hbase
  rw [except_bind_ok] at hbase
  obtain ⟨compareUrl, hcmp, hbase⟩ := hbase
  rw [pushRef, hrefv] at href
  injection href with href
  subst href
  rw [pushEmbedCore] at hbase
  rw [except_bind_ok] at hbase
  obtain ⟨refS', hrefS', hbase⟩ := hbase
  simp only [asStr, Except.ok.injEq] at hrefS'
  subst hrefS'
  dsimp only at hbase
  rw [except_bind_ok] at hbase
  obtain ⟨nCommits, hnc, hbase⟩ := hbase
  rw [except_bind_ok] at hbase
  obtain ⟨repoName, hrn, hbase⟩ := hbase
  rw [except_bind_ok] at hbase
  obtain ⟨fullName, hfn, hbase⟩ := hbase
  rw [except_bind_ok] at hbase
  obtain ⟨htmlUrl, hhu, hbase⟩ := hbase
  rw [except_bind_ok] at hbase
  obtain ⟨pusherName, hpn, hbase⟩ := hbase
  by_cases htc : truthy commits = true
  · rw [if_pos htc] at hbase
    rw [except_bind_ok] at hbase
    obtain ⟨latest, hla, hbase⟩ := hbase
    rw [except_bind_ok] at hbase
    obtain ⟨message, hm1, hbase⟩ := hbase
    rw [except_bind_ok] at hbase
    obtain ⟨message2, hm2, hbase⟩ := hbase
    rw [except_bind_ok] at hbase
    obtain ⟨commitUrl, hcu, hbase⟩ := hbase
    rw [except_bind_ok] at hbase
    obtain ⟨y, hy, hbase⟩ := hbase
    rw [except_bind_ok] at hbase
    obtain ⟨avatarUrl, hav, hbase⟩ := hbase
    simp only [pure, Except.pure, Except.ok.injEq] at hbase
    subst hbase
    subst hn
    rfl
  · rw [if_neg htc] at hbase
    rw [except_bind_ok] at hbase
    obtain ⟨y, hy, hbase⟩ := hbase
    rw [except_bind_ok] at hbase
    obtain ⟨avatarUrl, hav, hbase⟩ := hbase
    simp only [pure, Except.pure, Except.ok.injEq] at hbase
    subst hbase
    subst hn
    rfl

/-- C7 witness: the specification's example push payload, whose ref is
`refs/heads/main`, renders the title `New Push to main`. -/
theorem claim_C7_witness :
    pushRef pushPayloadEx = .ok (Json.str ((r"refs/heads/main").data)) ∧
    create_push_embed pushPayloadEx 7 = .ok (pushNotifEx 7) ∧
    (pushNotifEx 7).title = (r"📝 New Push to ").data ++
      (if pyStartsWith ((r"refs/heads/").data) ((r"refs/heads/main").data) then
        pyReplace ((r"refs/heads/main").data) ((r"refs/heads/").data) []
      else ((r"refs/heads/main").data)) :=
  ⟨rfl, by decide,
   claim_C7 pushPayloadEx 7 (pushNotifEx 7) ((r"refs/heads/main").data)
     rfl (by decide)⟩

/-- C7 counterexample: for `ref = "refs/heads/refs/heads/x"` the rendered
branch is `x` — every occurrence is removed — whereas stripping exactly
one leading occurrence would leave `refs/heads/x`. -/
theorem claim_C7_counterexample :
    (create_push_embed pushPayloadNested 0).map Notification.title =
      .ok ((r"📝 New Push to x").data) ∧
    ((r"x").data : List Char) ≠
      ((r"refs/heads/refs/heads/x").data).drop (((r"refs/heads/").data).length) :=
  ⟨by decide, by decide⟩

theorem name_ne_helper (x : List Char) :
    ((((r"PR #").data) ++ x) == ((r"Description").data)) = false := rfl

/-- C5: a pull-request body longer than 500 characters renders a
Description field of exactly 500 characters — the first 497 characters
followed by the three-character ellipsis — while a non-empty body of at
most 500 characters is rendered unchanged. -/
theorem claim_C5 (payload : Json) (now : Nat) (n : Notification) (b : List Char)
    (hb : prBody payload = .ok (Json.str b))
    (hr : create_pull_request_embed payload now = .ok n) :
    (500 < b.length →
      getField n ((r"Description").data) =
        some (b.take 497 ++ (r"...").data) ∧
      (b.take 497 ++ (r"...").data).length = 500) ∧
    (b.length ≤ 500 → b ≠ [] →
      getField n ((r"Description").data) = some b) := by
  rw [create_pull_request_embed, except_map_ok] at hr
  obtain ⟨e, hbase, hn⟩ := hr
  rw [create_pull_request_embed_base] at hbase
  rw [except_bind_ok] at hbase
  obtain ⟨pr, hpr, hbase⟩ := hbase
  rw [except_bind_ok] at hbase
  obtain ⟨action, hact, hbase⟩ := hbase
  rw [except_bind_ok] at hbase
  obtain ⟨repository, hrep, hbase⟩ := hbase
  rw [prBody, except_bind_ok] at hb
  obtain ⟨pr', hpr', hb⟩ := hb
  rw [hpr] at hpr'
  injection hpr' with hpr'
  subst hpr'
  rw [prEmbedCore] at hbase
  rw [except_bind_ok] at hbase
  obtain ⟨color, hcol, hbase⟩ := hbase
  rw [except_bind_ok] at hbase
  obtain ⟨actionS, hacts, hbase⟩ := hbase
  rw [except_bind_ok] at hbase
  obtain ⟨prTitle, hpt, hbase⟩ := hbase
  rw [except_bind_ok] at hbase
  obtain ⟨prUrl, hpu, hbase⟩ := hbase
  rw [except_bind_ok] at hbase
  obtain ⟨prNumber, hpnum, hbase⟩ := hbase
  rw [except_bind_ok] at hbase
  obtain ⟨prState, hps, hbase⟩ := hbase
  rw [except_bind_ok] at hbase
  obtain ⟨prStateS, hpss, hbase⟩ := hbase
  rw [except_bind_ok] at hbase
  obtain ⟨fullName, hfn, hbase⟩ := hbase
  rw [except_bind_ok] at hbase
  obtain ⟨htmlUrl, hhu, hbase⟩ := hbase
  rw [except_bind_ok] at hbase
  obtain ⟨user, huser, hbase⟩ := hbase
  rw [except_bind_ok] at hbase
  obtain ⟨login, hlog, hbase⟩ := hbase
  rw [except_bind_ok] at hbase
  obtain ⟨bodyV, hbv, hbase⟩ := hbase
  rw [hb] at hbv
  injection hbv with hbv
  subst hbv
  constructor
  · intro h5
    have hne : b ≠ [] := by
      intro hcon
      rw [hcon] at h5
      simp at h5
    have htr : truthy (Json.str b) = true := by
      simp [truthy, List.isEmpty_iff, hne]
    rw [if_pos htr] at hbase
    have htrunc : pyTruncate 500 497 (Json.str b) =
        .ok (Json.str (b.take 497 ++ (r"...").data)) := by
      simp [pyTruncate, pyLen, Bind.bind, Except.bind, h5]
      rfl
    rw [except_bind_ok] at hbase
    obtain ⟨bodyT, hbt, hbase⟩ := hbase
    rw [htrunc] at hbt
    injection hbt with hbt
    subst hbt
    rw [except_bind_ok] at hbase
    obtain ⟨y, hy, hbase⟩ := hbase
    rw [except_bind_ok] at hbase
    obtain ⟨avatarUrl, hav, hbase⟩ := hbase
    simp only [pure, Except.pure, Except.ok.injEq] at hy hbase
    subst hy
    subst hbase
    subst hn
    constructor
    · simp only [getField, List.find?, name_ne_helper]
      rfl
    · have h497 : (b.take 497).length = 497 := by
        simp [List.length_take]
        omega
      simp [List.length_append, h497]
  · intro h5 hne
    have htr : truthy (Json.str b) = true := by
      simp [truthy, List.isEmpty_iff, hne]
    rw [if_pos htr] at hbase
    have htrunc : pyTruncate 500 497 (Json.str b) = .ok (Json.str b) := by
      have : ¬ 500 < b.length := by omega
      simp [pyTruncate, pyLen, Bind.bind, Except.bind, this]
      rfl
    rw [except_bind_ok] at hbase
    obtain ⟨bodyT, hbt, hbase⟩ := hbase
    rw [htrunc] at hbt
    injection hbt with hbt
    subst hbt
    rw [except_bind_ok] at hbase
    obtain ⟨y, hy, hbase⟩ := hbase
    rw [except_bind_ok] at hbase
    obtain ⟨avatarUrl, hav, hbase⟩ := hbase
    simp only [pure, Except.pure, Except.ok.injEq] at hy hbase
    subst hy
    subst hbase
    subst hn
    simp only [getField, List.find?, name_ne_helper]
    rfl

set_option maxRecDepth 40000 in
/-- C5 witness: a 600-character body renders to 497 characters plus the
ellipsis (500 total); the two-character body `hi` is unchanged. -/
theorem claim_C5_witness :
    prBody prPayloadLong = .ok (Json.str (List.replicate 600 (Char.ofNat 97))) ∧
    create_pull_request_embed prPayloadLong 0 = .ok prNotifLong ∧
    (getField prNotifLong ((r"Description").data) =
        some ((List.replicate 600 (Char.ofNat 97)).take 497 ++ (r"...").data) ∧
      ((List.replicate 600 (Char.ofNat 97)).take 497 ++ (r"...").data).length = 500) ∧
    getField prNotifShort ((r"Description").data) = some ((r"hi").data) := by
  refine ⟨rfl, by decide, ?_, ?_⟩
  · exact (claim_C5 prPayloadLong 0 prNotifLong _ rfl (by decide)).1 (by decide)
  · exact (claim_C5 prPayloadShort 0 prNotifShort _ rfl (by decide)).2
      (by decide) (by decide)

theorem getNames_length : ∀ (ls js : List Json), getNames ls = .ok js →
    js.length = ls.length := by
  intro ls
  induction ls with
  | nil =>
      intro js h
      rw [getNames] at h
      injection h with h
      rw [← h]
  | cons l ls ih =>
      intro js h
      rw [getNames, except_bind_ok] at h
      obtain ⟨v, hv, h⟩ := h
      rw [except_bind_ok] at h
      obtain ⟨rest, hrest, h⟩ := h
      simp only [pure, Except.pure, Except.ok.injEq] at h
      rw [← h]
      simp [ih rest hrest]

theorem strListE_length : ∀ (js : List Json) (ss : List (List Char)),
    strListE js = .ok ss → ss.length = js.length := by
  intro js
  induction js with
  | nil =>
      intro ss h
      rw [strListE] at h
      injection h with h
      rw [← h]
      rfl
  | cons j js ih =>
      intro ss h
      cases j with
      | str s =>
          rw [strListE, except_map_ok] at h
          obtain ⟨rest, hrest, h⟩ := h
          rw [← h]
          simp [ih rest hrest]
      | null => simp [strListE] at h
      | bool b => simp [strListE] at h
      | num m => simp [strListE] at h
      | arr xs => simp [strListE] at h
      | obj kvs => simp [strListE] at h

/-- C6: for a non-empty labels list whose first five entries have string
names, the Labels field is the comma-join of at most the first five label
names, in list order, and that name list never exceeds five entries. -/
theorem claim_C6 (payload : Json) (now : Nat) (n : Notification)
    (ls : List Json) (names : List (List Char))
    (hl : issueLabels payload = .ok (Json.arr ls))
    (hne : ls ≠ [])
    (hs : labelStrs (ls.take 5) = .ok names)
    (hr : create_issue_embed payload now = .ok n) :
    getField n ((r"Labels").data) = some (pyJoin ((r", ").data) names) ∧
    names.length ≤ 5 := by
  have hlen : names.length ≤ 5 := by
    rw [labelStrs, except_bind_ok] at hs
    obtain ⟨jn, hjn, hs⟩ := hs
    have h1 := getNames_length _ _ hjn
    have h2 := strListE_length _ _ hs
    rw [h2, h1]
    simp [List.length_take]
  refine ⟨?_, hlen⟩
  rw [labelStrs, except_bind_ok] at hs
  obtain ⟨jn, hjn, hs⟩ := hs
  rw [create_issue_embed, except_map_ok] at hr
  obtain ⟨e, hbase, hn⟩ := hr
  rw [create_issue_embed_base] at hbase
  rw [except_bind_ok] at hbase
  obtain ⟨issue, hiss, hbase⟩ := hbase
  rw [except_bind_ok] at hbase
  obtain ⟨action, hact, hbase⟩ := hbase
  rw [except_bind_ok] at hbase
  obtain ⟨repository, hrep, hbase⟩ := hbase
  rw [issueLabels, except_bind_ok] at hl
  obtain ⟨issue', hiss', hl⟩ := hl
  rw [hiss] at hiss'
  injection hiss' with hiss'
  subst hiss'
  rw [issueEmbedCore] at hbase
  rw [except_bind_ok] at hbase
  obtain ⟨color, hcol, hbase⟩ := hbase
  rw [except_bind_ok] at hbase
  obtain ⟨actionS, hacts, hbase⟩ := hbase
  rw [except_bind_ok] at hbase
  obtain ⟨issueTitle, hit, hbase⟩ := hbase
  rw [except_bind_ok] at hbase
  obtain ⟨issueUrl, hiu, hbase⟩ := hbase
  rw [except_bind_ok] at hbase
  obtain ⟨issueNumber, hinum, hbase⟩ := hbase
  rw [except_bind_ok] at hbase
  obtain ⟨issueState, his, hbase⟩ := hbase
  rw [except_bind_ok] at hbase
  obtain ⟨issueStateS, hiss2, hbase⟩ := hbase
  rw [except_bind_ok] at hbase
  obtain ⟨fullName, hfn, hbase⟩ := hbase
  rw [except_bind_ok] at hbase
  obtain ⟨htmlUrl, hhu, hbase⟩ := hbase
  rw [except_bind_ok] at hbase
  obtain ⟨user, huser, hbase⟩ := hbase
  rw [except_bind_ok] at hbase
  obtain ⟨login, hlog, hbase⟩ := hbase
  rw [except_bind_ok] at hbase
  obtain ⟨labels, hlab, hbase⟩ := hbase
  rw [hl] at hlab
  injection hlab with hlab
  subst hlab
  have htr : truthy (Json.arr ls) = true := by
    simp [truthy, List.isEmpty_iff, hne]
  rw [if_pos htr] at hbase
  rw [except_bind_ok] at hbase
  obtain ⟨firstFive, hff, hbase⟩ := hbase
  have : pySlice5 (Json.arr ls) = .ok (ls.take 5) := rfl
  rw [this] at hff
  injection hff with hff
  subst hff
  rw [except_bind_ok] at hbase
  obtain ⟨jn', hjn', hbase⟩ := hbase
  rw [hjn] at hjn'
  injection hjn' with hjn'
  subst hjn'
  rw [except_bind_ok] at hbase
  obtain ⟨names', hnames', hbase⟩ := hbase
  rw [hs] at hnames'
  injection hnames' with hnames'
  subst hnames'
  rw [except_bind_ok] at hbase
  obtain ⟨y, hy, hbase⟩ := hbase
  rw [except_bind_ok] at hbase
  obtain ⟨avatarUrl, hav, hbase⟩ := hbase
  simp only [pure, Except.pure, Except.ok.injEq] at hy hbase
  subst hy
  subst hbase
  subst hn
  have hf1 : ∀ x : List Char,
      ((((r"Issue #").data) ++ x) == ((r"Labels").data)) = false :=
    fun x => rfl
  simp only [getField, List.find?, hf1]
  rfl

/-- C6 witness: an eight-label issue renders exactly the first five
names, comma-joined. -/
theorem claim_C6_witness :
    issueLabels issuePayloadEx = .ok (Json.arr issueLabelListEx) ∧
    issueLabelListEx.length = 8 ∧
    labelStrs (issueLabelListEx.take 5) =
      .ok [(r"l1").data, (r"l2").data, (r"l3").data, (r"l4").data,
           (r"l5").data] ∧
    create_issue_embed issuePayloadEx 0 = .ok issueNotifEx ∧
    (getField issueNotifEx ((r"Labels").data) =
        some (pyJoin ((r", ").data)
          [(r"l1").data, (r"l2").data, (r"l3").data, (r"l4").data,
           (r"l5").data]) ∧
      ([(r"l1").data, (r"l2").data, (r"l3").data, (r"l4").data,
        (r"l5").data] : List (List Char)).length ≤ 5) := by
  refine ⟨rfl, rfl, rfl, by decide, ?_⟩
  exact claim_C6 issuePayloadEx 0 issueNotifEx issueLabelListEx _
    rfl (by simp [issueLabelListEx]) rfl (by decide)

theorem pyGet_obj_cons_ne (k₁ k₂ : List Char) (v : Json) (kvs : List (List Char × Json))
    (d : Json) (h : (k₁ == k₂) = false) :
    pyGet (Json.obj ((k₁, v) :: kvs)) k₂ d = pyGet (Json.obj kvs) k₂ d := by
  simp only [pyGet, jLookup]
  rw [List.find?_cons_of_neg]
  simp [h]

theorem pyGet_obj_cons_self (k : List Char) (v : Json)
    (kvs : List (List Char × Json)) (d : Json) :
    pyGet (Json.obj ((k, v) :: kvs)) k d = .ok v := by
  simp only [pyGet, jLookup]
  rw [List.find?_cons_of_pos]
  · rfl
  · simp

theorem pyGet_obj_of_lookup_none (kvs : List (List Char × Json))
    (k : List Char) (d : Json) (h : jLookup kvs k = none) :
    pyGet (Json.obj kvs) k d = .ok d := by
  simp [pyGet, h]

theorem prCore_body_default (prKvs : List (List Char × Json))
    (action repository : Json)
    (h : jLookup prKvs ((r"body").data) = none) :
    prEmbedCore (Json.obj prKvs) action repository =
      prEmbedCore (Json.obj (((r"body").data, Json.str []) :: prKvs))
        action repository := by
  have hT : ∀ d, pyGet (Json.obj (((r"body").data, Json.str []) :: prKvs))
      ((r"title").data) d = pyGet (Json.obj prKvs) ((r"title").data) d :=
    fun d => pyGet_obj_cons_ne _ _ _ _ d (by decide)
  have hU : ∀ d, pyGet (Json.obj (((r"body").data, Json.str []) :: prKvs))
      ((r"html_url").data) d = pyGet (Json.obj prKvs) ((r"html_url").data) d :=
    fun d => pyGet_obj_cons_ne _ _ _ _ d (by decide)
  have hN : ∀ d, pyGet (Json.obj (((r"body").data, Json.str []) :: prKvs))
      ((r"number").data) d = pyGet (Json.obj prKvs) ((r"number").data) d :=
    fun d => pyGet_obj_cons_ne _ _ _ _ d (by decide)
  have hS : ∀ d, pyGet (Json.obj (((r"body").data, Json.str []) :: prKvs))
      ((r"state").data) d = pyGet (Json.obj prKvs) ((r"state").data) d :=
    fun d => pyGet_obj_cons_ne _ _ _ _ d (by decide)
  have hUs : ∀ d, pyGet (Json.obj (((r"body").data, Json.str []) :: prKvs))
      ((r"user").data) d = pyGet (Json.obj prKvs) ((r"user").data) d :=
    fun d => pyGet_obj_cons_ne _ _ _ _ d (by decide)
  have hB1 : pyGet (Json.obj prKvs) ((r"body").data) (Json.str []) =
      .ok (Json.str []) := pyGet_obj_of_lookup_none _ _ _ h
  have hB2 : pyGet (Json.obj (((r"body").data, Json.str []) :: prKvs))
      ((r"body").data) (Json.str []) = .ok (Json.str []) :=
    pyGet_obj_cons_self _ _ _ _
  rw [prEmbedCore, prEmbedCore]
  simp only [hT, hU, hN, hS, hUs, hB1, hB2]

theorem relCore_body_default (relKvs : List (List Char × Json))
    (action repository : Json)
    (h : jLookup relKvs ((r"body").data) = none) :
    releaseEmbedCore (Json.obj relKvs) action repository =
      releaseEmbedCore (Json.obj (((r"body").data, Json.str []) :: relKvs))
        action repository := by
  have hT : ∀ d, pyGet (Json.obj (((r"body").data, Json.str []) :: relKvs))
      ((r"tag_name").data) d = pyGet (Json.obj relKvs) ((r"tag_name").data) d :=
    fun d => pyGet_obj_cons_ne _ _ _ _ d (by decide)
  have hNm : ∀ d, pyGet (Json.obj (((r"body").data, Json.str []) :: relKvs))
      ((r"name").data) d = pyGet (Json.obj relKvs) ((r"name").data) d :=
    fun d => pyGet_obj_cons_ne _ _ _ _ d (by decide)
  have hU : ∀ d, pyGet (Json.obj (((r"body").data, Json.str []) :: relKvs))
      ((r"html_url").data) d = pyGet (Json.obj relKvs) ((r"html_url").data) d :=
    fun d => pyGet_obj_cons_ne _ _ _ _ d (by decide)
  have hA : ∀ d, pyGet (Json.obj (((r"body").data, Json.str []) :: relKvs))
      ((r"author").data) d = pyGet (Json.obj relKvs) ((r"author").data) d :=
    fun d => pyGet_obj_cons_ne _ _ _ _ d (by decide)
  have hB1 : pyGet (Json.obj relKvs) ((r"body").data) (Json.str []) =
      .ok (Json.str []) := pyGet_obj_of_lookup_none _ _ _ h
  have hB2 : pyGet (Json.obj (((r"body").data, Json.str []) :: relKvs))
      ((r"body").data) (Json.str []) = .ok (Json.str []) :=
    pyGet_obj_cons_self _ _ _ _
  rw [releaseEmbedCore, releaseEmbedCore]
  simp only [hT, hNm, hU, hA, hB1, hB2]

theorem issueCore_labels_default (issKvs : List (List Char × Json))
    (action repository : Json)
    (h : jLookup issKvs ((r"labels").data) = none) :
    issueEmbedCore (Json.obj issKvs) action repository =
      issueEmbedCore (Json.obj (((r"labels").data, Json.arr []) :: issKvs))
        action repository := by
  have hT : ∀ d, pyGet (Json.obj (((r"labels").data, Json.arr []) :: issKvs))
      ((r"title").data) d = pyGet (Json.obj issKvs) ((r"title").data) d :=
    fun d => pyGet_obj_cons_ne _ _ _ _ d (by decide)
  have hU : ∀ d, pyGet (Json.obj (((r"labels").data, Json.arr []) :: issKvs))
      ((r"html_url").data) d = pyGet (Json.obj issKvs) ((r"html_url").data) d :=
    fun d => pyGet_obj_cons_ne _ _ _ _ d (by decide)
  have hN : ∀ d, pyGet (Json.obj (((r"labels").data, Json.arr []) :: issKvs))
      ((r"number").data) d = pyGet (Json.obj issKvs) ((r"number").data) d :=
    fun d => pyGet_obj_cons_ne _ _ _ _ d (by decide)
  have hS : ∀ d, pyGet (Json.obj (((r"labels").data, Json.arr []) :: issKvs))
      ((r"state").data) d = pyGet (Json.obj issKvs) ((r"state").data) d :=
    fun d => pyGet_obj_cons_ne _ _ _ _ d (by decide)
  have hUs : ∀ d, pyGet (Json.obj (((r"labels").data, Json.arr []) :: issKvs))
      ((r"user").data) d = pyGet (Json.obj issKvs) ((r"user").data) d :=
    fun d => pyGet_obj_cons_ne _ _ _ _ d (by decide)
  have hL1 : pyGet (Json.obj issKvs) ((r"labels").data) (Json.arr []) =
      .ok (Json.arr []) := pyGet_obj_of_lookup_none _ _ _ h
  have hL2 : pyGet (Json.obj (((r"labels").data, Json.arr []) :: issKvs))
      ((r"labels").data) (Json.arr []) = .ok (Json.arr []) :=
    pyGet_obj_cons_self _ _ _ _
  rw [issueEmbedCore, issueEmbedCore]
  simp only [hT, hU, hN, hS, hUs, hL1, hL2]

theorem pr_absent_empty (now : Nat) (prKvs rest : List (List Char × Json))
    (h : jLookup prKvs ((r"body").data) = none) :
    create_pull_request_embed
      (Json.obj (((r"pull_request").data, Json.obj prKvs) :: rest)) now =
    create_pull_request_embed
      (Json.obj (((r"pull_request").data,
        Json.obj (((r"body").data, Json.str []) :: prKvs)) :: rest)) now := by
  rw [create_pull_request_embed, create_pull_request_embed,
    create_pull_request_embed_base, create_pull_request_embed_base]
  have h1 : ∀ x : Json, pyGet (Json.obj (((r"pull_request").data, x) :: rest))
      ((r"pull_request").data) (Json.obj []) = .ok x :=
    fun x => pyGet_obj_cons_self _ _ _ _
  have h2 : ∀ (x : Json) (d : Json),
      pyGet (Json.obj (((r"pull_request").data, x) :: rest)) ((r"action").data) d =
        pyGet (Json.obj rest) ((r"action").data) d :=
    fun x d => pyGet_obj_cons_ne _ _ _ _ d (by decide)
  have h3 : ∀ (x : Json) (d : Json),
      pyGet (Json.obj (((r"pull_request").data, x) :: rest))
          ((r"repository").data) d =
        pyGet (Json.obj rest) ((r"repository").data) d :=
    fun x d => pyGet_obj_cons_ne _ _ _ _ d (by decide)
  have h4 : ∀ d, pyGet (Json.obj rest) ((r"action").data) d =
      .ok ((jLookup rest ((r"action").data)).getD d) := fun d => rfl
  have h5 : ∀ d, pyGet (Json.obj rest) ((r"repository").data) d =
      .ok ((jLookup rest ((r"repository").data)).getD d) := fun d => rfl
  simp only [h1, h2, h3, h4, h5, Bind.bind, Except.bind]
  rw [prCore_body_default _ _ _ h]

theorem rel_absent_empty (now : Nat) (relKvs rest : List (List Char × Json))
    (h : jLookup relKvs ((r"body").data) = none) :
    create_release_embed
      (Json.obj (((r"release").data, Json.obj relKvs) :: rest)) now =
    create_release_embed
      (Json.obj (((r"release").data,
        Json.obj (((r"body").data, Json.str []) :: relKvs)) :: rest)) now := by
  rw [create_release_embed, create_release_embed,
    create_release_embed_base, create_release_embed_base]
  have h1 : ∀ x : Json, pyGet (Json.obj (((r"release").data, x) :: rest))
      ((r"release").data) (Json.obj []) = .ok x :=
    fun x => pyGet_obj_cons_self _ _ _ _
  have h2 : ∀ (x : Json) (d : Json),
      pyGet (Json.obj (((r"release").data, x) :: rest)) ((r"action").data) d =
        pyGet (Json.obj rest) ((r"action").data) d :=
    fun x d => pyGet_obj_cons_ne _ _ _ _ d (by decide)
  have h3 : ∀ (x : Json) (d : Json),
      pyGet (Json.obj (((r"release").data, x) :: rest)) ((r"repository").data) d =
        pyGet (Json.obj rest) ((r"repository").data) d :=
    fun x d => pyGet_obj_cons_ne _ _ _ _ d (by decide)
  have h4 : ∀ d, pyGet (Json.obj rest) ((r"action").data) d =
      .ok ((jLookup rest ((r"action").data)).getD d) := fun d => rfl
  have h5 : ∀ d, pyGet (Json.obj rest) ((r"repository").data) d =
      .ok ((jLookup rest ((r"repository").data)).getD d) := fun d => rfl
  simp only [h1, h2, h3, h4, h5, Bind.bind, Except.bind]
  rw [relCore_body_default _ _ _ h]

theorem issue_absent_empty (now : Nat) (issKvs rest : List (List Char × Json))
    (h : jLookup issKvs ((r"labels").data) = none) :
    create_issue_embed
      (Json.obj (((r"issue").data, Json.obj issKvs) :: rest)) now =
    create_issue_embed
      (Json.obj (((r"issue").data,
        Json.obj (((r"labels").data, Json.arr []) :: issKvs)) :: rest)) now := by
  rw [create_issue_embed, create_issue_embed,
    create_issue_embed_base, create_issue_embed_base]
  have h1 : ∀ x : Json, pyGet (Json.obj (((r"issue").data, x) :: rest))
      ((r"issue").data) (Json.obj []) = .ok x :=
    fun x => pyGet_obj_cons_self _ _ _ _
  have h2 : ∀ (x : Json) (d : Json),
      pyGet (Json.obj (((r"issue").data, x) :: rest)) ((r"action").data) d =
        pyGet (Json.obj rest) ((r"action").data) d :=
    fun x d => pyGet_obj_cons_ne _ _ _ _ d (by decide)
  have h3 : ∀ (x : Json) (d : Json),
      pyGet (Json.obj (((r"issue").data, x) :: rest)) ((r"repository").data) d =
        pyGet (Json.obj rest) ((r"repository").data) d :=
    fun x d => pyGet_obj_cons_ne _ _ _ _ d (by decide)
  have h4 : ∀ d, pyGet (Json.obj rest) ((r"action").data) d =
      .ok ((jLookup rest ((r"action").data)).getD d) := fun d => rfl
  have h5 : ∀ d, pyGet (Json.obj rest) ((r"repository").data) d =
      .ok ((jLookup rest ((r"repository").data)).getD d) := fun d => rfl
  simp only [h1, h2, h3, h4, h5, Bind.bind, Except.bind]
  rw [issueCore_labels_default _ _ _ h]

theorem pr_desc_iff (payload : Json) (now : Nat) (n : Notification)
    (b : List Char)
    (hb : prBody payload = .ok (Json.str b))
    (hr : create_pull_request_embed payload now = .ok n) :
    ((getField n ((r"Description").data)).isSome = true ↔ b ≠ []) := by
  rw [create_pull_request_embed, except_map_ok] at hr
  obtain ⟨e, hbase, hn⟩ := hr
  rw [create_pull_request_embed_base] at hbase
  rw [except_bind_ok] at hbase
  obtain ⟨pr, hpr, hbase⟩ := hbase
  rw [except_bind_ok] at hbase
  obtain ⟨action, hact, hbase⟩ := hbase
  rw [except_bind_ok] at hbase
  obtain ⟨repository, hrep, hbase⟩ := hbase
  rw [prBody, except_bind_ok] at hb
  obtain ⟨pr', hpr', hb⟩ := hb
  rw [hpr] at hpr'
  injection hpr' with hpr'
  subst hpr'
  rw [prEmbedCore] at hbase
  rw [except_bind_ok] at hbase
  obtain ⟨color, hcol, hbase⟩ := hbase
  rw [except_bind_ok] at hbase
  obtain ⟨actionS, hacts, hbase⟩ := hbase
  rw [except_bind_ok] at hbase
  obtain ⟨prTitle, hpt, hbase⟩ := hbase
  rw [except_bind_ok] at hbase
  obtain ⟨prUrl, hpu, hbase⟩ := hbase
  rw [except_bind_ok] at hbase
  obtain ⟨prNumber, hpnum, hbase⟩ := hbase
  rw [except_bind_ok] at hbase
  obtain ⟨prState, hps, hbase⟩ := hbase
  rw [except_bind_ok] at hbase
  obtain ⟨prStateS, hpss, hbase⟩ := hbase
  rw [except_bind_ok] at hbase
  obtain ⟨fullName, hfn, hbase⟩ := hbase
  rw [except_bind_ok] at hbase
  obtain ⟨htmlUrl, hhu, hbase⟩ := hbase
  rw [except_bind_ok] at hbase
  obtain ⟨user, huser, hbase⟩ := hbase
  rw [except_bind_ok] at hbase
  obtain ⟨login, hlog, hbase⟩ := hbase
  rw [except_bind_ok] at hbase
  obtain ⟨bodyV, hbv, hbase⟩ := hbase
  rw [hb] at hbv
  injection hbv with hbv
  subst hbv
  by_cases hbe : b = []
  · subst hbe
    rw [if_neg (by decide)] at hbase
    rw [except_bind_ok] at hbase
    obtain ⟨y, hy, hbase⟩ := hbase
    rw [except_bind_ok] at hbase
    obtain ⟨avatarUrl, hav, hbase⟩ := hbase
    simp only [pure, Except.pure, Except.ok.injEq] at hy hbase
    subst hy
    subst hbase
    subst hn
    exact iff_of_false (fun hc => Bool.noConfusion hc) (fun hc => hc rfl)
  · have htr : truthy (Json.str b) = true := by
      simp [truthy, List.isEmpty_iff, hbe]
    rw [if_pos htr] at hbase
    rw [except_bind_ok] at hbase
    obtain ⟨bodyT, hbt, hbase⟩ := hbase
    rw [except_bind_ok] at hbase
    obtain ⟨y, hy, hbase⟩ := hbase
    rw [except_bind_ok] at hbase
    obtain ⟨avatarUrl, hav, hbase⟩ := hbase
    simp only [pure, Except.pure, Except.ok.injEq] at hy hbase
    subst hy
    subst hbase
    subst hn
    simp only [getField, List.find?, name_ne_helper]
    simpa using hbe

theorem rel_name_ne_helper1 :
    (((r"Tag").data) == ((r"Description").data)) = false := rfl

theorem rel_desc_iff (payload : Json) (now : Nat) (n : Notification)
    (b : List Char)
    (hb : releaseBody payload = .ok (Json.str b))
    (hr : create_release_embed payload now = .ok n) :
    ((getField n ((r"Description").data)).isSome = true ↔ b ≠ []) := by
  rw [create_release_embed, except_map_ok] at hr
  obtain ⟨e, hbase, hn⟩ := hr
  rw [create_release_embed_base] at hbase
  rw [except_bind_ok] at hbase
  obtain ⟨release, hrel, hbase⟩ := hbase
  rw [except_bind_ok] at hbase
  obtain ⟨action, hact, hbase⟩ := hbase
  rw [except_bind_ok] at hbase
  obtain ⟨repository, hrep, hbase⟩ := hbase
  rw [releaseBody, except_bind_ok] at hb
  obtain ⟨rel', hrel', hb⟩ := hb
  rw [hrel] at hrel'
  injection hrel' with hrel'
  subst hrel'
  rw [releaseEmbedCore] at hbase
  rw [except_bind_ok] at hbase
  obtain ⟨actionS, hacts, hbase⟩ := hbase
  rw [except_bind_ok] at hbase
  obtain ⟨tagDefault, htd, hbase⟩ := hbase
  rw [except_bind_ok] at hbase
  obtain ⟨releaseName, hrn, hbase⟩ := hbase
  rw [except_bind_ok] at hbase
  obtain ⟨releaseUrl, hru, hbase⟩ := hbase
  rw [except_bind_ok] at hbase
  obtain ⟨tagName, htn, hbase⟩ := hbase
  rw [except_bind_ok] at hbase
  obtain ⟨fullName, hfn, hbase⟩ := hbase
  rw [except_bind_ok] at hbase
  obtain ⟨htmlUrl, hhu, hbase⟩ := hbase
  rw [except_bind_ok] at hbase
  obtain ⟨author, hau, hbase⟩ := hbase
  rw [except_bind_ok] at hbase
  obtain ⟨login, hlog, hbase⟩ := hbase
  rw [except_bind_ok] at hbase
  obtain ⟨bodyV, hbv, hbase⟩ := hbase
  rw [hb] at hbv
  injection hbv with hbv
  subst hbv
  by_cases hbe : b = []
  · subst hbe
    rw [if_neg (by decide)] at hbase
    rw [except_bind_ok] at hbase
    obtain ⟨y, hy, hbase⟩ := hbase
    rw [except_bind_ok] at hbase
    obtain ⟨avatarUrl, hav, hbase⟩ := hbase
    simp only [pure, Except.pure, Except.ok.injEq] at hy hbase
    subst hy
    subst hbase
    subst hn
    exact iff_of_false (fun hc => Bool.noConfusion hc) (fun hc => hc rfl)
  · have htr : truthy (Json.str b) = true := by
      simp [truthy, List.isEmpty_iff, hbe]
    rw [if_pos htr] at hbase
    rw [except_bind_ok] at hbase
    obtain ⟨bodyT, hbt, hbase⟩ := hbase
    rw [except_bind_ok] at hbase
    obtain ⟨y, hy, hbase⟩ := hbase
    rw [except_bind_ok] at hbase
    obtain ⟨avatarUrl, hav, hbase⟩ := hbase
    simp only [pure, Except.pure, Except.ok.injEq] at hy hbase
    subst hy
    subst hbase
    subst hn
    simp only [getField, List.find?, rel_name_ne_helper1]
    simpa using hbe

/-- C10, amended: an absent body and an empty-string body render
byte-identically for pull_request and release — neither produces a
Description field — and an absent labels list renders identically to an
empty one for issues; when the body is a string, the Description field
exists exactly when it is non-empty.  The claim's unrestricted "if and
only if the body is a non-empty string" fails for non-string truthy
bodies: a non-empty list of length at most 500 renders a Description
field via `str()` (see the counterexample). -/
theorem claim_C10 :
    (∀ (now : Nat) (prKvs rest : List (List Char × Json)),
      jLookup prKvs ((r"body").data) = none →
      create_pull_request_embed
        (Json.obj (((r"pull_request").data, Json.obj prKvs) :: rest)) now =
      create_pull_request_embed
        (Json.obj (((r"pull_request").data,
          Json.obj (((r"body").data, Json.str []) :: prKvs)) :: rest)) now) ∧
    (∀ (now : Nat) (relKvs rest : List (List Char × Json)),
      jLookup relKvs ((r"body").data) = none →
      create_release_embed
        (Json.obj (((r"release").data, Json.obj relKvs) :: rest)) now =
      create_release_embed
        (Json.obj (((r"release").data,
          Json.obj (((r"body").data, Json.str []) :: relKvs)) :: rest)) now) ∧
    (∀ (now : Nat) (issKvs rest : List (List Char × Json)),
      jLookup issKvs ((r"labels").data) = none →
      create_issue_embed
        (Json.obj (((r"issue").data, Json.obj issKvs) :: rest)) now =
      create_issue_embed
        (Json.obj (((r"issue").data,
          Json.obj (((r"labels").data, Json.arr []) :: issKvs)) :: rest)) now) ∧
    (∀ (payload : Json) (now : Nat) (n : Notification) (b : List Char),
      prBody payload = .ok (Json.str b) →
      create_pull_request_embed payload now = .ok n →
      ((getField n ((r"Description").data)).isSome = true ↔ b ≠ [])) ∧
    (∀ (payload : Json) (now : Nat) (n : Notification) (b : List Char),
      releaseBody payload = .ok (Json.str b) →
      create_release_embed payload now = .ok n →
      ((getField n ((r"Description").data)).isSome = true ↔ b ≠ [])) :=
  ⟨pr_absent_empty, rel_absent_empty, issue_absent_empty, pr_desc_iff,
   rel_desc_iff⟩

/-- C10 witness: concrete instances of all five parts. -/
theorem claim_C10_witness :
    (create_pull_request_embed
        (Json.obj [((r"pull_request").data, Json.obj [])]) 3 =
      create_pull_request_embed
        (Json.obj [((r"pull_request").data,
          Json.obj [((r"body").data, Json.str [])])]) 3) ∧
    (create_release_embed
        (Json.obj [((r"release").data, Json.obj [])]) 3 =
      create_release_embed
        (Json.obj [((r"release").data,
          Json.obj [((r"body").data, Json.str [])])]) 3) ∧
    (create_issue_embed
        (Json.obj [((r"issue").data, Json.obj [])]) 3 =
      create_issue_embed
        (Json.obj [((r"issue").data,
          Json.obj [((r"labels").data, Json.arr [])])]) 3) ∧
    (getField prNotifShort ((r"Description").data)).isSome = true ∧
    (getField relNotifShort ((r"Description").data)).isSome = true := by
  refine ⟨claim_C10.1 3 [] [] rfl, claim_C10.2.1 3 [] [] rfl,
    claim_C10.2.2.1 3 [] [] rfl, ?_, ?_⟩
  · exact (claim_C10.2.2.2.1 prPayloadShort 0 prNotifShort ((r"hi").data)
      rfl (by decide)).mpr (by decide)
  · exact (claim_C10.2.2.2.2 relPayloadShort 0 relNotifShort ((r"hi").data)
      rfl (by decide)).mpr (by decide)

/-- C10 counterexample: a pull-request body that is the non-empty list
`[1]` — not a string — still renders a Description field (with value
`str([1]) = "[1]"`), so the field's existence is not equivalent to the
body being a non-empty string. -/
theorem claim_C10_counterexample :
    prBody prPayloadListBody = .ok (Json.arr [Json.num 1]) ∧
    (create_pull_request_embed prPayloadListBody 0).map
        (fun n => getField n ((r"Description").data)) =
      .ok (some ((r"[1]").data)) :=
  ⟨rfl, by decide⟩
